import Mathlib

/-!
Verification of the prison-commissary inflation pipeline.

This file gives a shallow embedding of the core of the repository
`francescacollu/prison_inflation` and proves / refutes the frozen claims
about it.  The embedded components are:

* `src/src/analysis/category_mapping.py` — commissary-to-CPI category map;
* `src/src/analysis/essential_classification.py` — essential classifier;
* `src/src/analysis/calculate_inflation.py` — fixed-basket selection and
  the CPI / commissary inflation calculators;
* `src/clean_commissary_data.py` — the item-name/size normalizer.

Modelling conventions:

* Python `float` arithmetic is embedded as exact rational arithmetic (`ℚ`);
  the IEEE special values that numpy produces on division by zero are
  represented explicitly by the type `PFloat` below, and Python `None` by
  `Option`.
* pandas DataFrames are embedded as lists of records; column access by name
  becomes field access.  `.unique()` keeps the first occurrence, as in
  pandas; `groupby` sorts its keys, which we mirror with an insertion sort.
  `sort_values` uses an unstable quicksort in pandas, so any order refining
  the year order is a faithful model of the item-series sort.
* Python strings are embedded as `String` (for the tabular code) and as
  `List Char` (for the character-level normalizer); `str.lower`/`str.upper`
  act ASCII-wise exactly like `Char.toLower`/`Char.toUpper` on the data in
  scope.  Each `re` pattern of the source is implemented as a dedicated
  total function on `List Char`, documented with the pattern it embeds.
-/

/-! ## Generic list / string utilities -/

/-- Chars of a string literal. -/
def chars (s : String) : List Char := s.toList

/-- Python's `\s` class (`str.split()` whitespace): space, tab, newline,
carriage return, vertical tab, form feed. -/
def is_space (c : Char) : Bool :=
  c = ' ' || c = '\t' || c = '\n' || c = '\r' || c = '\x0b' || c = '\x0c'

/-- Python `str.strip()`. -/
def strip_ws (l : List Char) : List Char :=
  ((l.dropWhile is_space).reverse.dropWhile is_space).reverse

/-- Helper of `py_words`: accumulates the current word (reversed). -/
def words_aux : List Char → List Char → List (List Char)
  | [], cur => if cur.isEmpty then [] else [cur.reverse]
  | c :: rest, cur =>
    if is_space c then
      if cur.isEmpty then words_aux rest [] else cur.reverse :: words_aux rest []
    else words_aux rest (c :: cur)

/-- Python `str.split()` with no separator: maximal non-whitespace runs. -/
def py_words (l : List Char) : List (List Char) := words_aux l []

/-- `' '.join ws`. -/
def join_space : List (List Char) → List Char
  | [] => []
  | [w] => w
  | w :: ws => w ++ ' ' :: join_space ws

/-- Python `' '.join(s.split())`: collapse runs of whitespace, trim ends. -/
def collapse_ws (l : List Char) : List Char := join_space (py_words l)

/-- Python `pat in s` (substring test) on char lists. -/
def occurs_in (pat : List Char) : List Char → Bool
  | [] => pat.isEmpty
  | c :: rest => pat.isPrefixOf (c :: rest) || occurs_in pat rest

/-- Python `pat in s` on strings. -/
def str_contains (pat s : String) : Bool := occurs_in pat.data s.data

/-- Python `str.lower()` (ASCII data in scope). -/
def lower_str (s : String) : String := String.mk (s.data.map Char.toLower)

/-- Python `str.upper()` (ASCII data in scope). -/
def upper_str (s : String) : String := String.mk (s.data.map Char.toUpper)

/-- Insert into a list sorted by the boolean comparator `le`. -/
def ins_by (le : α → α → Bool) (a : α) : List α → List α
  | [] => [a]
  | b :: l => if le a b then a :: b :: l else b :: ins_by le a l

/-- Insertion sort by a boolean comparator. -/
def sort_by (le : α → α → Bool) : List α → List α
  | [] => []
  | a :: l => ins_by le a (sort_by le l)

/-- First-occurrence deduplication (pandas `Series.unique()`). -/
def dedup_first [BEq α] (l : List α) : List α :=
  l.foldl (fun acc x => if acc.contains x then acc else acc ++ [x]) []

/-- Lexicographic (code-point) comparison, Python string `<=`. -/
def lex_le : List Char → List Char → Bool
  | [], _ => true
  | _ :: _, [] => false
  | a :: s, b :: t => if a = b then lex_le s t else decide (a < b)

/-- Python `<=` on strings. -/
def str_le (a b : String) : Bool := lex_le a.data b.data

/-! ## `category_mapping.py` -/

/-- `COMMISSARY_TO_CPI_MAPPING` (the dict, as an association list in source
order; keys are distinct). -/
def COMMISSARY_TO_CPI_MAPPING : List (String × String) :=
  [("CANDY", "Food at home"),
   ("CONDIMENTS", "Food at home"),
   ("INSTANT FOODS", "Food at home"),
   ("JUICES / WATER / TEA", "Food at home"),
   ("KOSHER ITEMS", "Food at home"),
   ("OTHER FOOD ITEMS", "Food at home"),
   ("PACKAGED MEAT", "Food at home"),
   ("SNACKS", "Food at home"),
   ("SODAS", "Food at home"),
   ("BEVERAGES", "Food at home"),
   ("ICE CREAM", "Food at home"),
   ("INSTANT DRINK MIX", "Food at home"),
   ("INSTANT DRINK MIXES", "Food at home"),
   ("HYGIENE", "Personal care"),
   ("FEMALE ONLY", "Personal care"),
   ("MALE ONLY", "Personal care"),
   ("CLOTHING", "Apparel"),
   ("SHOES", "Apparel"),
   ("OTC MEDICATIONS, VITAMINS, ETC", "Medicinal drugs"),
   ("ART SUPPLIES", "Recreation"),
   ("CORRESPONDENCE", "Recreation"),
   ("GAMES", "Recreation"),
   ("ELECTRICAL", "Recreation"),
   ("JEWELRY / RELIGIOUS", "Other goods"),
   ("MISCELLANEOUS", "CPI-U")]

/-- `get_cpi_category`: dictionary lookup with default `"CPI-U"`. -/
def get_cpi_category (commissary_category : String) : String :=
  match COMMISSARY_TO_CPI_MAPPING.find? (fun kv => kv.1 == commissary_category) with
  | some kv => kv.2
  | none => "CPI-U"

/-! ## `essential_classification.py` -/

def ESSENTIAL_CATEGORIES : List String :=
  ["HYGIENE", "MALE ONLY", "FEMALE ONLY", "CLOTHING", "SHOES",
   "OTC MEDICATIONS, VITAMINS, ETC", "INSTANT FOODS", "PACKAGED MEAT",
   "CONDIMENTS", "KOSHER ITEMS", "JUICES / WATER / TEA",
   "INSTANT DRINK MIX", "INSTANT DRINK MIXES"]

def NON_ESSENTIAL_CATEGORIES : List String :=
  ["CANDY", "SNACKS", "ART SUPPLIES", "GAMES", "ELECTRICAL", "ICE CREAM",
   "SODAS", "JEWELRY / RELIGIOUS"]

def ESSENTIAL_PATTERNS : List String :=
  ["soap", "toothpaste", "tooth brush", "shampoo", "deodorant", "antiperspirant",
   "toilet tissue", "toilet paper", "tissue", "razor", "shave",
   "pads", "pantiliners", "maxi", "tampon",
   "hygiene pack", "hygiene kit",
   "socks", "underwear", "briefs", "boxer", "t-shirt", "tshirt", "shirt",
   "pants", "shorts", "bra", "sports bra",
   "ramen", "noodles", "rice", "beans", "chicken", "tuna", "salmon", "mackerel",
   "cereal", "pasta", "potato", "instant", "coffee", "tea",
   "stamp", "envelope", "pen", "pencil", "paper", "writing tablet",
   "aspirin", "ibuprofen", "antacid", "vitamin", "medication",
   "water", "juice", "milk"]

def NON_ESSENTIAL_PATTERNS : List String :=
  ["candy", "jawbreaker", "jolly rancher", "tootsie", "twix",
   "chips", "tortilla", "pork skins", "almonds", "sunflower",
   "coloring book", "colored pencil", "watercolor", "paint", "drawing pad",
   "chess", "game", "radio", "headphone", "earbud", "fan", "clock",
   "typewriter", "ribbon", "printwheel",
   "lipstick", "mascara", "eyeliner", "foundation", "makeup", "nail polish",
   "hair perm", "hair dryer", "hair gel", "cologne", "perfume",
   "fancy", "luxury",
   "greeting card", "dictionary", "storage box", "medallion", "rune",
   "prayer oil", "soda", "pop", "ice cream"]

def FEMALE_ESSENTIAL_ITEMS : List String :=
  ["pantiliners", "maxi pads", "always", "hygiene pack", "sports bra",
   "briefs", "panties"]

def FEMALE_NON_ESSENTIAL_ITEMS : List String :=
  ["lipstick", "mascara", "eyeliner", "foundation", "makeup",
   "hair perm", "hair dryer", "nail", "tweezer"]

def CORRESPONDENCE_ESSENTIAL_ITEMS : List String :=
  ["stamp", "envelope", "pen", "pencil", "paper", "writing tablet"]

def CORRESPONDENCE_NON_ESSENTIAL_ITEMS : List String :=
  ["greeting card", "dictionary", "carbon paper", "eraser", "folder", "sharpener"]

/-- `any(pattern in item_name_lower for pattern in pats)`. -/
def any_pattern_in (pats : List String) (name_lower : String) : Bool :=
  pats.any (fun p => str_contains p name_lower)

/-- `classify_item_essential(item_name, category)`, translated branch by
branch from the source. -/
def classify_item_essential (item_name category : String) : String :=
  let item_name_lower := lower_str item_name
  let category_upper := upper_str category
  if ESSENTIAL_CATEGORIES.contains category_upper then
    if category_upper == "FEMALE ONLY" then
      if any_pattern_in FEMALE_NON_ESSENTIAL_ITEMS item_name_lower then "non-essential"
      else if any_pattern_in FEMALE_ESSENTIAL_ITEMS item_name_lower then "essential"
      else if any_pattern_in ["hygiene", "pad", "bra", "brief", "pantie"] item_name_lower then
        "essential"
      else "non-essential"
    else if category_upper == "CORRESPONDENCE" then
      if any_pattern_in CORRESPONDENCE_ESSENTIAL_ITEMS item_name_lower then "essential"
      else if any_pattern_in CORRESPONDENCE_NON_ESSENTIAL_ITEMS item_name_lower then "non-essential"
      else "essential"
    else if any_pattern_in NON_ESSENTIAL_PATTERNS item_name_lower then "non-essential"
    else "essential"
  else if NON_ESSENTIAL_CATEGORIES.contains category_upper then
    if any_pattern_in NON_ESSENTIAL_PATTERNS item_name_lower then "non-essential"
    else "non-essential"
  else if any_pattern_in ESSENTIAL_PATTERNS item_name_lower then
    if any_pattern_in NON_ESSENTIAL_PATTERNS item_name_lower then "non-essential"
    else "essential"
  else if any_pattern_in NON_ESSENTIAL_PATTERNS item_name_lower then "non-essential"
  else if category_upper == "OTHER FOOD ITEMS" then "essential"
  else "non-essential"

/-! ## `calculate_inflation.py` — data model -/

/-- A row of the commissary CSV (the columns the calculator reads). -/
structure CommissaryRow where
  year : Int
  category : String
  item_name : String
  size : Option String
  price_min : ℚ
  price_max : ℚ
deriving DecidableEq

/-- `price_avg = (price_min + price_max) / 2` (line 109 of the source). -/
def price_avg (r : CommissaryRow) : ℚ := (r.price_min + r.price_max) / 2

/-- `item_id = item_name + "|" + size.fillna('')`. -/
def item_id (r : CommissaryRow) : String := r.item_name ++ "|" ++ r.size.getD ""

/-- The computed `cpi_category` column. -/
def row_cpi_category (r : CommissaryRow) : String := get_cpi_category r.category

/-- Embedding of the IEEE values a Python float expression can take here:
a finite value (exact ℚ), the two infinities that numpy float division by
zero produces, and NaN. -/
inductive PFloat where
  | val (q : ℚ)
  | posInf
  | negInf
  | nan
deriving DecidableEq

/-- `((p - b) / b) * 100` with numpy float semantics at `b = 0`:
`x / 0.0` is `inf` for `x > 0`, `-inf` for `x < 0` and `nan` for `x = 0`. -/
def pct_change (p b : ℚ) : PFloat :=
  if b = 0 then
    if p > b then .posInf else if p < b then .negInf else .nan
  else .val ((p - b) / b * 100)

/-- pandas `Series.mean()`: NaN on an empty series, else the exact mean. -/
def series_mean : List ℚ → PFloat
  | [] => .nan
  | l => .val (l.sum / l.length)

/-- Exact mean of a (nonempty in all uses) list, as a rational. -/
def qmean (l : List ℚ) : ℚ := l.sum / l.length

/-- `pct_change` lifted to possibly-NaN operands; NaN propagates (the only
non-finite operands that occur are NaN means of empty series). -/
def pct_change_f : PFloat → PFloat → PFloat
  | .val p, .val b => pct_change p b
  | _, _ => .nan

/-- Python `min` on a list of years; the empty case (where Python raises)
is given the junk value 0, which no required-year list in use hits. -/
def py_min : List Int → Int
  | [] => 0
  | x :: xs => xs.foldl min x

/-- The default `required_years` of `calculate_commissary_inflation`. -/
def default_required_years : List Int :=
  [2019, 2020, 2021, 2022, 2023, 2024, 2025]

/-! ## `identify_fixed_basket_items` and the basket filter -/

/-- `identify_fixed_basket_items(commissary_df, required_years)`:
the item ids (in sorted order, as pandas `groupby` sorts its keys) whose
set of observed years contains every required year. -/
def identify_fixed_basket_items (df : List CommissaryRow) (required_years : List Int) :
    List String :=
  (sort_by str_le (dedup_first (df.map item_id))).filter (fun id =>
    required_years.all (fun y => df.any (fun r => item_id r == id && r.year == y)))

/-- Lines 120-122: restrict the frame to rows of fixed-basket items. -/
def basket_filter (df : List CommissaryRow) (required_years : List Int) :
    List CommissaryRow :=
  df.filter (fun r => (identify_fixed_basket_items df required_years).contains (item_id r))

/-! ## Item-level inflation -/

/-- One row of the `item_level` output frame. -/
structure ItemInflationRecord where
  year : Int
  category : String
  cpi_category : String
  item_name : String
  size : Option String
  price : ℚ
  essential_status : String
  yoy_inflation_pct : Option PFloat
  cumulative_inflation_pct : PFloat
deriving DecidableEq

/-- The inner loop of the item-level pass (lines 143-183), for the
year-sorted rows `item_data` of one fixed-basket item.  The baseline year
is hardcoded to 2019 in the source; an item without a 2019 observation is
skipped (`continue`), and `item_data['...'].iloc[0]` is the head. -/
def item_series (item_data : List CommissaryRow) (required_years : List Int) :
    List ItemInflationRecord :=
  match item_data with
  | [] => []
  | hd :: _ =>
    match (item_data.filter (fun r => r.year == 2019)).head? with
    | none => []
    | some brow =>
      item_data.map (fun r =>
        { year := r.year
          category := hd.category
          cpi_category := row_cpi_category hd
          item_name := hd.item_name
          size := hd.size
          price := price_avg r
          essential_status := classify_item_essential hd.item_name hd.category
          yoy_inflation_pct :=
            if r.year > py_min required_years then
              match (item_data.filter (fun q => q.year == r.year - 1)).head? with
              | some prev => some (pct_change (price_avg r) (price_avg prev))
              | none => none
            else none
          cumulative_inflation_pct := pct_change (price_avg r) (price_avg brow) })

/-- Lines 134-185: the `item_level` output.  Items whose row count is below
`len(required_years)` are skipped (the source's defensive check). -/
def item_level_calc (df : List CommissaryRow) (required_years : List Int) :
    List ItemInflationRecord :=
  let fdf := basket_filter df required_years
  ((identify_fixed_basket_items df required_years).map (fun id =>
    let item_data := sort_by (fun a b => decide (a.year ≤ b.year))
      (fdf.filter (fun r => item_id r == id))
    if item_data.length < required_years.length then []
    else item_series item_data required_years)).flatten

/-! ## Group-level inflation (category / cpi_category / overall) -/

/-- One row of the `category_level` output frame. -/
structure CategoryInflationRecord where
  year : Int
  category : String
  cpi_category : String
  avg_price : ℚ
  yoy_inflation_pct : Option PFloat
  cumulative_inflation_pct : Option PFloat
deriving DecidableEq

/-- Lines 187-231: category-level inflation over the basket-filtered frame
`fdf`.  Group price level is the mean of `price_avg`; the baseline is the
category's own 2019 mean; `yoy` only for years after 2019. -/
def category_level_calc (fdf : List CommissaryRow) : List CategoryInflationRecord :=
  ((sort_by (fun a b => decide (a ≤ b)) (dedup_first (fdf.map (·.year)))).map (fun y =>
    let year_data := fdf.filter (fun r => r.year == y)
    (dedup_first (year_data.map (·.category))).map (fun cat =>
      let cat_data := year_data.filter (fun r => r.category == cat)
      let avg_price := qmean (cat_data.map price_avg)
      let baseline_data := fdf.filter (fun r => r.category == cat && r.year == 2019)
      { year := y
        category := cat
        cpi_category :=
          (match cat_data.head? with
           | some r => row_cpi_category r
           | none => "")
        avg_price := avg_price
        yoy_inflation_pct :=
          if y > 2019 then
            let prev_year_data := fdf.filter (fun r => r.category == cat && r.year == y - 1)
            if prev_year_data.isEmpty then none
            else some (pct_change avg_price (qmean (prev_year_data.map price_avg)))
          else none
        cumulative_inflation_pct :=
          if baseline_data.isEmpty then none
          else some (pct_change avg_price (qmean (baseline_data.map price_avg))) }))).flatten

/-- One row of the `cpi_category_level` output frame. -/
structure CpiCategoryInflationRecord where
  year : Int
  cpi_category : String
  avg_price : ℚ
  yoy_inflation_pct : Option PFloat
  cumulative_inflation_pct : Option PFloat
deriving DecidableEq

/-- Lines 233-274: the same computation grouped by the `cpi_category`
column. -/
def cpi_category_level_calc (fdf : List CommissaryRow) : List CpiCategoryInflationRecord :=
  ((sort_by (fun a b => decide (a ≤ b)) (dedup_first (fdf.map (·.year)))).map (fun y =>
    let year_data := fdf.filter (fun r => r.year == y)
    (dedup_first (year_data.map row_cpi_category)).map (fun cpi_cat =>
      let cpi_cat_data := year_data.filter (fun r => row_cpi_category r == cpi_cat)
      let avg_price := qmean (cpi_cat_data.map price_avg)
      let baseline_data := fdf.filter (fun r => row_cpi_category r == cpi_cat && r.year == 2019)
      { year := y
        cpi_category := cpi_cat
        avg_price := avg_price
        yoy_inflation_pct :=
          if y > 2019 then
            let prev_year_data :=
              fdf.filter (fun r => row_cpi_category r == cpi_cat && r.year == y - 1)
            if prev_year_data.isEmpty then none
            else some (pct_change avg_price (qmean (prev_year_data.map price_avg)))
          else none
        cumulative_inflation_pct :=
          if baseline_data.isEmpty then none
          else some (pct_change avg_price (qmean (baseline_data.map price_avg))) }))).flatten

/-- One row of the `overall` output frame. -/
structure OverallInflationRecord where
  year : Int
  level : String
  avg_price : ℚ
  yoy_inflation_pct : Option PFloat
  cumulative_inflation_pct : PFloat
deriving DecidableEq

/-- Lines 276-303: overall inflation.  Unlike the category passes, the
baseline and previous-year means are unguarded, so an empty 2019 slice
makes the result NaN (an empty pandas mean), not `None`. -/
def overall_calc (fdf : List CommissaryRow) : List OverallInflationRecord :=
  (sort_by (fun a b => decide (a ≤ b)) (dedup_first (fdf.map (·.year)))).map (fun y =>
    let year_data := fdf.filter (fun r => r.year == y)
    let avg_price := qmean (year_data.map price_avg)
    { year := y
      level := "overall"
      avg_price := avg_price
      yoy_inflation_pct :=
        if y > 2019 then
          some (pct_change_f (.val avg_price)
            (series_mean ((fdf.filter (fun r => r.year == y - 1)).map price_avg)))
        else none
      cumulative_inflation_pct :=
        pct_change_f (.val avg_price)
          (series_mean ((fdf.filter (fun r => r.year == 2019)).map price_avg)) })

/-- The `fixed_basket_info` dictionary. -/
structure FixedBasketInfo where
  total_items_original : Nat
  fixed_basket_items : Nat
  items_excluded : Int
  required_years : List Int
deriving DecidableEq

/-- The result dictionary of `calculate_commissary_inflation`. -/
structure CommissaryInflationResult where
  item_level : List ItemInflationRecord
  category_level : List CategoryInflationRecord
  cpi_category_level : List CpiCategoryInflationRecord
  overall : List OverallInflationRecord
  fixed_basket_info : FixedBasketInfo
deriving DecidableEq

/-- `calculate_commissary_inflation(commissary_df, required_years)`.
The Python default for `required_years` is `default_required_years`. -/
def calculate_commissary_inflation (df : List CommissaryRow) (required_years : List Int) :
    CommissaryInflationResult :=
  let basket := identify_fixed_basket_items df required_years
  let fdf := basket_filter df required_years
  { item_level := item_level_calc df required_years
    category_level := category_level_calc fdf
    cpi_category_level := cpi_category_level_calc fdf
    overall := overall_calc fdf
    fixed_basket_info :=
      { total_items_original := (dedup_first (df.map item_id)).length
        fixed_basket_items := basket.length
        items_excluded :=
          ((dedup_first (df.map item_id)).length : Int) - basket.length
        required_years := required_years } }

/-! ## `calculate_cpi_inflation` -/

/-- A row of the CPI CSV. -/
structure CpiRow where
  year : Int
  cpi_type : String
  value : ℚ
deriving DecidableEq

/-- One row of the CPI inflation output frame. -/
structure CpiInflationRecord where
  year : Int
  cpi_type : String
  cpi_value : ℚ
  yoy_inflation_pct : Option PFloat
  cumulative_inflation_pct : PFloat
deriving DecidableEq

/-- Lines 11-55: per CPI type (first-occurrence order), sorted by year;
a type with no 2019 value is skipped (`continue`); the 2019 value is the
cumulative baseline, and `yoy` needs the previous year present. -/
def calculate_cpi_inflation (cpi_df : List CpiRow) : List CpiInflationRecord :=
  ((dedup_first (cpi_df.map (·.cpi_type))).map (fun t =>
    let type_data := sort_by (fun (a b : CpiRow) => decide (a.year ≤ b.year))
      (cpi_df.filter (fun r => r.cpi_type == t))
    match (type_data.filter (fun r => r.year == 2019)).head? with
    | none => ([] : List CpiInflationRecord)
    | some b =>
      type_data.map (fun r =>
        ({ year := r.year
           cpi_type := t
           cpi_value := r.value
           yoy_inflation_pct :=
             if r.year > (2019 : Int) then
               match (type_data.filter (fun q => q.year == r.year - 1)).head? with
               | some prev => some (pct_change r.value prev.value)
               | none => none
             else none
           cumulative_inflation_pct := pct_change r.value b.value } : CpiInflationRecord)))).flatten

/-! ## Spec-side group formulas (for the refinement claim C5)

These definitions follow the words of the spec:  the group price level for
a year is the unweighted mean of `price_avg` over the group's fixed-basket
observations in that year, and the group's cumulative / year-over-year
percentages apply the item-level formulas to that group price series
against the group's own baseline-year (2019) mean. -/

/-- The group's fixed-basket observations in year `y`. -/
def spec_group_rows (fdf : List CommissaryRow) (in_group : CommissaryRow → Bool)
    (y : Int) : List CommissaryRow :=
  fdf.filter (fun r => in_group r && r.year == y)

/-- Spec: the group price level for year `y` (unweighted mean). -/
def spec_group_avg_price (fdf : List CommissaryRow) (in_group : CommissaryRow → Bool)
    (y : Int) : ℚ :=
  qmean ((spec_group_rows fdf in_group y).map price_avg)

/-- Spec: cumulative percentage of the group price series against the
group's own baseline-year mean (null when the group has no baseline
observations). -/
def spec_group_cumulative (fdf : List CommissaryRow) (in_group : CommissaryRow → Bool)
    (y : Int) : Option PFloat :=
  if (spec_group_rows fdf in_group 2019).isEmpty then none
  else some (pct_change (spec_group_avg_price fdf in_group y)
    (spec_group_avg_price fdf in_group 2019))

/-- Spec: year-over-year percentage of the group price series (null at or
before the baseline year and when the previous year is absent). -/
def spec_group_yoy (fdf : List CommissaryRow) (in_group : CommissaryRow → Bool)
    (y : Int) : Option PFloat :=
  if y > 2019 then
    if (spec_group_rows fdf in_group (y - 1)).isEmpty then none
    else some (pct_change (spec_group_avg_price fdf in_group y)
      (spec_group_avg_price fdf in_group (y - 1)))
  else none

/-! ## `clean_commissary_data.py` — the name/size normalizer

Each `re` pattern of the source is implemented as a dedicated function on
`List Char`.  A *matcher* `List Char → Option (Nat × List Char)` decides
whether the pattern matches at the head of its argument and returns the
length of the matched text together with either the group-1 capture (for
the size patterns, which are substituted by the empty string) or the
replacement text (for the two `standardize_size` rewrites).  `re.search`
is `search_first` (leftmost match), and `re.sub` is `sub_all_del` /
`sub_all_rep` (all non-overlapping matches, left to right).  All the
patterns in scope match at least one character, so a fuel equal to the
input length suffices. -/

/-- Leftmost `re.search`: first position where the matcher fires; returns
the capture. -/
def search_first (m : List Char → Option (Nat × List Char)) : List Char → Option (List Char)
  | [] => none
  | c :: rest =>
    match m (c :: rest) with
    | some x => some x.2
    | none => search_first m rest

/-- `re.sub(pattern, '', s)`: delete every non-overlapping match, scanning
left to right.  A (never occurring) zero-length match is skipped over. -/
def sub_all_del (m : List Char → Option (Nat × List Char)) : Nat → List Char → List Char
  | 0, l => l
  | _ + 1, [] => []
  | fuel + 1, c :: rest =>
    match m (c :: rest) with
    | some (k, _) =>
      if k = 0 then c :: sub_all_del m fuel rest
      else sub_all_del m fuel ((c :: rest).drop k)
    | none => c :: sub_all_del m fuel rest

/-- `re.sub(pattern, repl, s)` where the matcher returns the instantiated
replacement: replace every non-overlapping match, left to right. -/
def sub_all_rep (m : List Char → Option (Nat × List Char)) : Nat → List Char → List Char
  | 0, l => l
  | _ + 1, [] => []
  | fuel + 1, c :: rest =>
    match m (c :: rest) with
    | some (k, repl) =>
      if k = 0 then c :: sub_all_rep m fuel rest
      else repl ++ sub_all_rep m fuel ((c :: rest).drop k)
    | none => c :: sub_all_rep m fuel rest

/-- Case-insensitive literal prefix (the pattern word is given lowercase):
returns the consumed original characters and the rest. -/
def ci_starts (w : List Char) (l : List Char) : Option (List Char × List Char) :=
  match w, l with
  | [], l => some ([], l)
  | _ :: _, [] => none
  | p :: ps, c :: cs =>
    if c.toLower = p then
      match ci_starts ps cs with
      | some (u, r) => some (c :: u, r)
      | none => none
    else none

/-- `\d+\.?\d*` (a number, optionally with a decimal part); returns the
matched characters and the rest; `none` when there is no leading digit. -/
def num_chars (l : List Char) : Option (List Char × List Char) :=
  let d1 := l.takeWhile Char.isDigit
  if d1.isEmpty then none
  else
    match l.drop d1.length with
    | '.' :: r2 =>
      let d2 := r2.takeWhile Char.isDigit
      some (d1 ++ '.' :: d2, r2.drop d2.length)
    | r1 => some (d1, r1)

/-- The unit words of the size patterns, in source (alternation) order. -/
def unit_words : List (List Char) :=
  [chars "oz", chars "lb", chars "gal", chars "ml", chars "kg", chars "g",
   chars "mg", chars "l"]

/-- The count words of the size patterns, in source order. -/
def count_words : List (List Char) :=
  [chars "pk", chars "ct", chars "piece", chars "tab", chars "tablet",
   chars "sheet", chars "bag", chars "color", chars "sht"]

/-- The container words discarded by pattern (d), in source order. -/
def container_words : List (List Char) :=
  [chars "bottle", chars "can", chars "jar", chars "pack"]

/-- Size pattern (a), `\s+(\d+\s*[xX]\s*\d+)`: dimension pair. -/
def match_dim_sp (l : List Char) : Option (Nat × List Char) :=
  let sp := l.takeWhile is_space
  if sp.isEmpty then none
  else
    let r1 := l.drop sp.length
    let d1 := r1.takeWhile Char.isDigit
    if d1.isEmpty then none
    else
      let r2 := r1.drop d1.length
      let s1 := r2.takeWhile is_space
      match r2.drop s1.length with
      | x :: r4 =>
        if x = 'x' || x = 'X' then
          let s2 := r4.takeWhile is_space
          let d2 := (r4.drop s2.length).takeWhile Char.isDigit
          if d2.isEmpty then none
          else some (sp.length + d1.length + s1.length + 1 + s2.length + d2.length,
                     d1 ++ s1 ++ x :: (s2 ++ d2))
        else none
      | [] => none

/-- Size pattern (b), `\s+(\d+x\d+(?:\s*["\'])?)` with `re.IGNORECASE`
(so the `x` also matches `X`): dimension with optional quote mark. -/
def match_dim_quote (l : List Char) : Option (Nat × List Char) :=
  let sp := l.takeWhile is_space
  if sp.isEmpty then none
  else
    let r1 := l.drop sp.length
    let d1 := r1.takeWhile Char.isDigit
    if d1.isEmpty then none
    else
      match r1.drop d1.length with
      | x :: r3 =>
        if x = 'x' || x = 'X' then
          let d2 := r3.takeWhile Char.isDigit
          if d2.isEmpty then none
          else
            let r4 := r3.drop d2.length
            let s3 := r4.takeWhile is_space
            match r4.drop s3.length with
            | q :: _ =>
              if q = '"' || q = '\'' then
                some (sp.length + d1.length + 1 + d2.length + s3.length + 1,
                      d1 ++ x :: (d2 ++ s3 ++ [q]))
              else some (sp.length + d1.length + 1 + d2.length, d1 ++ x :: d2)
            | [] => some (sp.length + d1.length + 1 + d2.length, d1 ++ x :: d2)
        else none
      | [] => none

/-- Unit alternation inside parentheses: first unit (in order) that is a
case-insensitive prefix and is followed directly by `)`. -/
def units_close : List (List Char) → List Char → Option (List Char)
  | [], _ => none
  | u :: us, l =>
    match ci_starts u l with
    | some (uc, ')' :: _) => some uc
    | _ => units_close us l

/-- Size pattern (c), `\((\d+\.?\d*\s*(?:oz|lb|gal|ml|kg|g|mg|l))\)`,
case-insensitive: parenthesized unit quantity. -/
def match_paren_unit (l : List Char) : Option (Nat × List Char) :=
  match l with
  | '(' :: r1 =>
    match num_chars r1 with
    | some (n, r2) =>
      let s := r2.takeWhile is_space
      match units_close unit_words (r2.drop s.length) with
      | some uc => some (1 + n.length + s.length + uc.length + 1, n ++ s ++ uc)
      | none => none
    | none => none
  | _ => none

/-- Count alternation inside parentheses: first count word (in order) that
matches case-insensitively, with an optional `s`, directly before `)`. -/
def counts_close : List (List Char) → List Char → Option (List Char)
  | [], _ => none
  | u :: us, l =>
    match ci_starts u l with
    | some (uc, rest) =>
      match rest with
      | c1 :: r1 =>
        if c1 = 's' || c1 = 'S' then
          match r1 with
          | ')' :: _ => some (uc ++ [c1])
          | _ => counts_close us l
        else if c1 = ')' then some uc
        else counts_close us l
      | [] => counts_close us l
    | none => counts_close us l

/-- Size pattern (d) of the parenthesized kind,
`\((\d+\s*(?:pk|ct|piece|tab|tablet|sheet|bag|color|sht)s?)\)`,
case-insensitive: parenthesized count quantity. -/
def match_paren_count (l : List Char) : Option (Nat × List Char) :=
  match l with
  | '(' :: r1 =>
    let d := r1.takeWhile Char.isDigit
    if d.isEmpty then none
    else
      let r2 := r1.drop d.length
      let s := r2.takeWhile is_space
      match counts_close count_words (r2.drop s.length) with
      | some uc => some (1 + d.length + s.length + uc.length + 1, d ++ s ++ uc)
      | none => none
  | _ => none

/-- Container check of pattern (d): some container word (in order), case-
insensitively, followed by the end of the string. -/
def container_at_end : List (List Char) → List Char → Bool
  | [], _ => false
  | w :: ws, l =>
    match ci_starts w l with
    | some (_, []) => true
    | _ => container_at_end ws l

/-- Unit alternation of pattern (d): first unit that matches case-
insensitively and whose continuation `\s*(?:bottle|can|jar|pack)?$`
succeeds; returns the consumed unit characters. -/
def units_to_end : List (List Char) → List Char → Option (List Char)
  | [], _ => none
  | u :: us, l =>
    match ci_starts u l with
    | some (uc, rest) =>
      let rest2 := rest.dropWhile is_space
      if rest2.isEmpty || container_at_end container_words rest2 then some uc
      else units_to_end us l
    | none => units_to_end us l

/-- Size pattern (d),
`[-\s](\d+\.?\d*\s*(?:oz|lb|gal|ml|kg|g|mg|l))\s*(?:bottle|can|jar|pack)?$`,
case-insensitive: unit quantity at the end of the string, an optional
container word being discarded.  Anchored at the end, so the match length
is the whole remaining string. -/
def match_end_unit (l : List Char) : Option (Nat × List Char) :=
  match l with
  | c :: r1 =>
    if c = '-' || is_space c then
      match num_chars r1 with
      | some (n, r2) =>
        let s := r2.takeWhile is_space
        match units_to_end unit_words (r2.drop s.length) with
        | some uc => some (l.length, n ++ s ++ uc)
        | none => none
      | none => none
    else none
  | [] => none

/-- Count alternation of pattern (e): first count word with optional `s`
whose continuation `\s*$` succeeds; returns the consumed characters. -/
def counts_to_end : List (List Char) → List Char → Option (List Char)
  | [], _ => none
  | u :: us, l =>
    match ci_starts u l with
    | some (uc, rest) =>
      match rest with
      | c1 :: r1 =>
        if (c1 = 's' || c1 = 'S') && (r1.dropWhile is_space).isEmpty then
          some (uc ++ [c1])
        else if (rest.dropWhile is_space).isEmpty then some uc
        else counts_to_end us l
      | [] => some uc
    | none => counts_to_end us l

/-- Size pattern (e),
`[-\s](\d+\s*(?:pk|ct|piece|tab|tablet|sheet|bag|color|sht)s?)\s*$`,
case-insensitive: count quantity at the end of the string. -/
def match_end_count (l : List Char) : Option (Nat × List Char) :=
  match l with
  | c :: r1 =>
    if c = '-' || is_space c then
      let d := r1.takeWhile Char.isDigit
      if d.isEmpty then none
      else
        let r2 := r1.drop d.length
        let s := r2.takeWhile is_space
        match counts_to_end count_words (r2.drop s.length) with
        | some uc => some (l.length, d ++ s ++ uc)
        | none => none
    else none
  | [] => none

/-- Unit alternation of pattern (f): first unit ending the string. -/
def units_exact_end : List (List Char) → List Char → Option (List Char)
  | [], _ => none
  | u :: us, l =>
    match ci_starts u l with
    | some (uc, []) => some uc
    | _ => units_exact_end us l

/-- Size pattern (f), `\s+(\d+\.?\d*\s*(?:oz|lb|gal|ml|kg|g|mg|l))$`,
case-insensitive: bare unit quantity at the very end. -/
def match_end_unit_nosep (l : List Char) : Option (Nat × List Char) :=
  let sp := l.takeWhile is_space
  if sp.isEmpty then none
  else
    match num_chars (l.drop sp.length) with
    | some (n, r2) =>
      let s := r2.takeWhile is_space
      match units_exact_end unit_words (r2.drop s.length) with
      | some uc => some (l.length, n ++ s ++ uc)
      | none => none
    | none => none

/-- Count alternation of pattern (g): first count word, with optional `s`,
ending the string. -/
def counts_exact_end : List (List Char) → List Char → Option (List Char)
  | [], _ => none
  | u :: us, l =>
    match ci_starts u l with
    | some (uc, []) => some uc
    | some (uc, [c1]) => if c1 = 's' || c1 = 'S' then some (uc ++ [c1]) else counts_exact_end us l
    | _ => counts_exact_end us l

/-- Size pattern (g), `\s+(\d+\s*(?:pk|ct|piece|tab|tablet|sheet|bag|color|sht)s?)$`,
case-insensitive: bare count quantity at the very end. -/
def match_end_count_nosep (l : List Char) : Option (Nat × List Char) :=
  let sp := l.takeWhile is_space
  if sp.isEmpty then none
  else
    let r1 := l.drop sp.length
    let d := r1.takeWhile Char.isDigit
    if d.isEmpty then none
    else
      let r2 := r1.drop d.length
      let s := r2.takeWhile is_space
      match counts_exact_end count_words (r2.drop s.length) with
      | some uc => some (l.length, d ++ s ++ uc)
      | none => none

/-- Size pattern (h), `\s+(\d+\.?\d*\s*["\'])$`: inch/quote measurement at
the very end. -/
def match_end_inch (l : List Char) : Option (Nat × List Char) :=
  let sp := l.takeWhile is_space
  if sp.isEmpty then none
  else
    match num_chars (l.drop sp.length) with
    | some (n, r2) =>
      let s := r2.takeWhile is_space
      match r2.drop s.length with
      | [q] => if q = '"' || q = '\'' then some (l.length, n ++ s ++ [q]) else none
      | _ => none
    | none => none

/-- The ordered size-pattern cascade of `clean_item_name` (lines 40-55). -/
def size_matchers : List (List Char → Option (Nat × List Char)) :=
  [match_dim_sp, match_dim_quote, match_paren_unit, match_paren_count,
   match_end_unit, match_end_count, match_end_unit_nosep,
   match_end_count_nosep, match_end_inch]

/-- Lines 57-63: try each size pattern in order; on the first match return
`(match.group(1).strip(), re.sub(pattern, '', item_name).strip())`. -/
def extract_size_go : List (List Char → Option (Nat × List Char)) → List Char →
    Option (List Char × List Char)
  | [], _ => none
  | m :: ms, name =>
    match search_first m name with
    | some cap => some (strip_ws cap, strip_ws (sub_all_del m name.length name))
    | none => extract_size_go ms name

/-- The size-extraction step of `clean_item_name`. -/
def extract_size (name : List Char) : Option (List Char × List Char) :=
  extract_size_go size_matchers name

/-- `re.sub(r'\s*\$?\d+\.\d{2}-\s*$', '', s)` (line 33) when `dollar`,
`re.sub(r'\s*\d+\.\d{2}-\s*$', '', s)` (line 34) otherwise.  Parsed from
the right: trailing whitespace, `-`, exactly two digits, `.`, one or more
digits, an optional `$`, and leading whitespace, all removed. -/
def strip_price_core (dollar : Bool) (l : List Char) : List Char :=
  match l.reverse.dropWhile is_space with
  | '-' :: r2 =>
    (match r2 with
     | a :: b :: '.' :: r3 =>
       if a.isDigit && b.isDigit then
         let d1 := r3.takeWhile Char.isDigit
         if d1.isEmpty then l
         else
           let r4 := r3.drop d1.length
           let r5 := (match r4 with
                      | '$' :: r5' => if dollar then r5' else r4
                      | _ => r4)
           (r5.dropWhile is_space).reverse
       else l
     | _ => l)
  | _ => l

/-- Line 33: strip a trailing `$`-optional price remnant. -/
def strip_price_dollar (l : List Char) : List Char := strip_price_core true l

/-- Line 34: strip a trailing price remnant without `$`. -/
def strip_price_plain (l : List Char) : List Char := strip_price_core false l

/-- Line 68: `re.search(r'[xX]\s*$', item_name)` — does the name end in a
dimension marker? -/
def ends_in_x (l : List Char) : Bool :=
  match l.reverse.dropWhile is_space with
  | c :: _ => c = 'x' || c = 'X'
  | [] => false

/-- Line 69: `re.sub(r'\s+\d+$', '', item_name)` — strip one trailing
whitespace-preceded bare integer. -/
def strip_trailing_int (l : List Char) : List Char :=
  let r0 := l.reverse
  let d := r0.takeWhile Char.isDigit
  if d.isEmpty then l
  else
    let r1 := r0.drop d.length
    let s := r1.takeWhile is_space
    if s.isEmpty then l else (r1.drop s.length).reverse

/-- `standardize_size` rewrite 1 (line 16),
`re.sub(r'(\d+\.?\d*)\s*x\s*(\d+\.?\d*)', r'\1x\2', s)`: join dimensions.
The matcher returns the instantiated replacement. -/
def match_dim_join (l : List Char) : Option (Nat × List Char) :=
  match num_chars l with
  | some (g1, r1) =>
    let s1 := r1.takeWhile is_space
    match r1.drop s1.length with
    | 'x' :: r3 =>
      let s2 := r3.takeWhile is_space
      match num_chars (r3.drop s2.length) with
      | some (g2, _) =>
        some (g1.length + s1.length + 1 + s2.length + g2.length, g1 ++ 'x' :: g2)
      | none => none
    | _ => none
  | none => none

/-- `standardize_size` rewrite 2 (line 20),
`re.sub(r'(\d+\.?\d*)\s*([a-wy-z]+)', r'\1 \2', s)`: one space between a
number and a unit word (the letter class excludes `x`). -/
def match_unit_space (l : List Char) : Option (Nat × List Char) :=
  match num_chars l with
  | some (g1, r1) =>
    let s := r1.takeWhile is_space
    let g2 := (r1.drop s.length).takeWhile (fun c => 'a' ≤ c && c ≤ 'z' && c ≠ 'x')
    if g2.isEmpty then none
    else some (g1.length + s.length + g2.length, g1 ++ ' ' :: g2)
  | none => none

/-- `standardize_size(size_str)` (lines 5-25): strip, lowercase, join
dimensions, space number-unit pairs, collapse whitespace. -/
def standardize_size (size_str : List Char) : List Char :=
  if size_str.isEmpty then []
  else
    let s0 := strip_ws size_str
    let s1 := s0.map Char.toLower
    let s2 := sub_all_rep match_dim_join s1.length s1
    let s3 := sub_all_rep match_unit_space s2.length s2
    collapse_ws s3

/-- `clean_item_name(row)` (lines 27-78) on the `(item_name, size)` pair,
where a missing (`NaN`) size is the empty list.  Returns the cleaned
`(item_name, size)`. -/
def clean_item_name (item_name0 size0 : List Char) : List Char × List Char :=
  let n2 := strip_price_plain (strip_price_dollar item_name0)
  let step :=
    if size0.isEmpty then
      match extract_size n2 with
      | some (sz, n3) => (n3, sz)
      | none => (n2, size0)
    else (n2, size0)
  let n4 := if ends_in_x step.1 then step.1 else strip_trailing_int step.1
  let size2 := if step.2.isEmpty then step.2 else standardize_size step.2
  (collapse_ws n4, size2)

/-! ## Helper lemmas -/

theorem mem_ins_by {le : α → α → Bool} {a x : α} {l : List α} :
    x ∈ ins_by le a l ↔ x = a ∨ x ∈ l := by
  induction l with
  | nil => simp [ins_by]
  | cons b t ih =>
    by_cases h : le a b = true
    · rw [ins_by, if_pos h]
      simp [List.mem_cons]
    · rw [ins_by, if_neg h]
      simp only [List.mem_cons, ih]
      tauto

theorem mem_sort_by {le : α → α → Bool} {x : α} {l : List α} :
    x ∈ sort_by le l ↔ x ∈ l := by
  induction l with
  | nil => simp [sort_by]
  | cons b t ih => simp [sort_by, mem_ins_by, ih]

theorem mem_dedup_first_aux [BEq α] [LawfulBEq α] (l : List α) (acc : List α) (x : α) :
    x ∈ l.foldl (fun acc x => if acc.contains x then acc else acc ++ [x]) acc ↔
      x ∈ acc ∨ x ∈ l := by
  induction l generalizing acc with
  | nil => simp
  | cons b t ih =>
    simp only [List.foldl_cons]
    by_cases h : acc.contains b = true
    · rw [if_pos h, ih]
      have hb : b ∈ acc := by simpa using h
      constructor
      · rintro (hx | hx)
        · exact Or.inl hx
        · exact Or.inr (List.mem_cons_of_mem b hx)
      · rintro (hx | hx)
        · exact Or.inl hx
        · rcases List.mem_cons.mp hx with h1 | h2
          · exact Or.inl (h1 ▸ hb)
          · exact Or.inr h2
    · rw [if_neg h, ih]
      simp only [List.mem_append, List.mem_singleton, List.mem_cons]
      tauto

theorem mem_dedup_first [BEq α] [LawfulBEq α] {l : List α} {x : α} :
    x ∈ dedup_first l ↔ x ∈ l := by
  unfold dedup_first
  rw [mem_dedup_first_aux]
  simp

theorem qmean_pos {l : List ℚ} (hpos : ∀ x ∈ l, 0 < x) (hne : l ≠ []) : 0 < qmean l := by
  unfold qmean
  apply div_pos
  · exact List.sum_pos l hpos hne
  · have : 0 < l.length := List.length_pos.mpr hne
    exact_mod_cast this

theorem pct_change_self {p : ℚ} (hp : p ≠ 0) : pct_change p p = .val 0 := by
  simp [pct_change, hp]

/-! ## Claim C10 — the category mapper is total with fallback CPI-U -/

/-- C10: `get_cpi_category` is a total function; for every category string
absent from the static mapping table — the empty string included — it
returns `"CPI-U"`. -/
theorem c10_mapper_total_fallback :
    (∀ c : String, c ∉ COMMISSARY_TO_CPI_MAPPING.map Prod.fst →
      get_cpi_category c = "CPI-U") ∧
    get_cpi_category "" = "CPI-U" := by
  constructor
  · intro c hc
    unfold get_cpi_category
    cases h : COMMISSARY_TO_CPI_MAPPING.find? (fun kv => kv.1 == c) with
    | none => rfl
    | some kv =>
      exfalso
      apply hc
      have hmem := List.mem_of_find?_eq_some h
      have hp := List.find?_some h
      have heq : kv.1 = c := by simpa using hp
      exact heq ▸ List.mem_map_of_mem Prod.fst hmem
  · rfl

/-- C10 witness: the fallback at the concrete unmapped key `"BOOKS"`. -/
theorem c10_mapper_total_fallback_witness :
    get_cpi_category "BOOKS" = "CPI-U" :=
  c10_mapper_total_fallback.1 "BOOKS" (by decide)

/-! ## Claims C8, C9 — the essential classifier -/

/-- C8 counterexample: the item `("Fancy Soap", "HYGIENE")` has category
`HYGIENE` and a name containing `soap`, yet the classifier returns
`"non-essential"` (the generic non-essential keyword `"fancy"` overrides
the category default), refuting the claim's `HYGIENE`+`soap` clause. -/
theorem c8_counterexample :
    str_contains "soap" (lower_str "Fancy Soap") = true ∧
    classify_item_essential "Fancy Soap" "HYGIENE" = "non-essential" := by
  constructor
  · decide
  · decide

/-- C8 (amended): the classifier is a deterministic pure function; an item
of category `"CANDY"` is always `"non-essential"`; and an item of category
`"HYGIENE"` whose name contains `"soap"` is `"essential"` **provided** the
name matches no generic non-essential keyword (otherwise that keyword
overrides the category default, see the counterexample). -/
theorem c8_classifier_determinism :
    (∀ n c : String, classify_item_essential n c = classify_item_essential n c) ∧
    (∀ n : String, str_contains "soap" (lower_str n) = true →
      any_pattern_in NON_ESSENTIAL_PATTERNS (lower_str n) = false →
      classify_item_essential n "HYGIENE" = "essential") ∧
    (∀ n : String, classify_item_essential n "CANDY" = "non-essential") := by
  refine ⟨fun n c => rfl, fun n _ hno => ?_, fun n => ?_⟩
  · unfold classify_item_essential
    rw [show upper_str "HYGIENE" = "HYGIENE" from rfl]
    rw [if_pos (show ESSENTIAL_CATEGORIES.contains "HYGIENE" = true from rfl)]
    rw [if_neg (show ¬(("HYGIENE" : String) == "FEMALE ONLY") = true from by decide)]
    rw [if_neg (show ¬(("HYGIENE" : String) == "CORRESPONDENCE") = true from by decide)]
    rw [if_neg (by simp [hno])]
  · unfold classify_item_essential
    rw [show upper_str "CANDY" = "CANDY" from rfl]
    rw [if_neg (show ¬(ESSENTIAL_CATEGORIES.contains "CANDY") = true from by decide)]
    rw [if_pos (show NON_ESSENTIAL_CATEGORIES.contains "CANDY" = true from rfl)]
    by_cases h : any_pattern_in NON_ESSENTIAL_PATTERNS (lower_str n) = true
    · rw [if_pos h]
    · rw [if_neg h]

/-- C8 witness: the amended clauses at the concrete items
`("Dial Soap", "HYGIENE")` and `("Twix Candy Bar", "CANDY")`. -/
theorem c8_classifier_determinism_witness :
    classify_item_essential "Dial Soap" "HYGIENE" = "essential" ∧
    classify_item_essential "Twix Candy Bar" "CANDY" = "non-essential" :=
  ⟨c8_classifier_determinism.2.1 "Dial Soap" (by decide) (by decide),
   c8_classifier_determinism.2.2 "Twix Candy Bar"⟩

/-- C9 counterexample: the category `"OTHER FOOD ITEMS"` belongs to neither
category set and the name `"zzz"` matches no keyword, yet the classifier
returns `"essential"` (the pre-default `OTHER FOOD ITEMS` clause), not the
claimed `"non-essential"` default. -/
theorem c9_counterexample :
    ESSENTIAL_CATEGORIES.contains (upper_str "OTHER FOOD ITEMS") = false ∧
    NON_ESSENTIAL_CATEGORIES.contains (upper_str "OTHER FOOD ITEMS") = false ∧
    any_pattern_in ESSENTIAL_PATTERNS (lower_str "zzz") = false ∧
    any_pattern_in NON_ESSENTIAL_PATTERNS (lower_str "zzz") = false ∧
    classify_item_essential "zzz" "OTHER FOOD ITEMS" = "essential" := by
  refine ⟨by decide, by decide, by decide, by decide, by decide⟩

/-- C9 (amended): when the (upper-cased) category belongs to neither
category set, the name matches no essential and no non-essential keyword,
**and** the category is not `"OTHER FOOD ITEMS"` (which the source special-
cases to `"essential"` just before the final default), the classifier
returns the default `"non-essential"`. -/
theorem c9_default_non_essential (n c : String)
    (h1 : ESSENTIAL_CATEGORIES.contains (upper_str c) = false)
    (h2 : NON_ESSENTIAL_CATEGORIES.contains (upper_str c) = false)
    (h3 : any_pattern_in ESSENTIAL_PATTERNS (lower_str n) = false)
    (h4 : any_pattern_in NON_ESSENTIAL_PATTERNS (lower_str n) = false)
    (h5 : upper_str c ≠ "OTHER FOOD ITEMS") :
    classify_item_essential n c = "non-essential" := by
  unfold classify_item_essential
  rw [if_neg (by rw [h1]; exact Bool.false_ne_true),
    if_neg (by rw [h2]; exact Bool.false_ne_true),
    if_neg (by rw [h3]; exact Bool.false_ne_true),
    if_neg (by rw [h4]; exact Bool.false_ne_true),
    if_neg (by simp [h5])]

/-- C9 witness: the amended default at the concrete item
`("zzz", "STATIONERY EXTRAS")`. -/
theorem c9_default_non_essential_witness :
    classify_item_essential "zzz" "STATIONERY EXTRAS" = "non-essential" :=
  c9_default_non_essential "zzz" "STATIONERY EXTRAS"
    (by decide) (by decide) (by decide) (by decide) (by decide)

/-! ## Claim C2 — the fixed-basket selector -/

/-- C2: the fixed-basket selector retains exactly the item ids observed in
every required year, and every retained output row belongs to a retained
id — so an excluded id has no output rows in any year. -/
theorem c2_fixed_basket_complete (df : List CommissaryRow) (required_years : List Int)
    (id : String) :
    (id ∈ identify_fixed_basket_items df required_years ↔
      (∃ r ∈ df, item_id r = id) ∧
      ∀ y ∈ required_years, ∃ r ∈ df, item_id r = id ∧ r.year = y) ∧
    (∀ r ∈ basket_filter df required_years,
      item_id r ∈ identify_fixed_basket_items df required_years) := by
  constructor
  · unfold identify_fixed_basket_items
    rw [List.mem_filter, mem_sort_by, mem_dedup_first]
    simp only [List.mem_map, List.all_eq_true, List.any_eq_true, Bool.and_eq_true,
      beq_iff_eq]
  · intro r hr
    unfold basket_filter at hr
    have := (List.mem_filter.mp hr).2
    simpa using this

/-- C2 witness: on a concrete frame, item `A` (observed 2019 and 2020) is
retained and item `B` (2019 only) is excluded for required years
2019-2020. -/
theorem c2_fixed_basket_complete_witness :
    "A|" ∈ identify_fixed_basket_items
      [⟨2019, "CANDY", "A", none, 10, 10⟩, ⟨2020, "CANDY", "A", none, 12, 12⟩,
       ⟨2019, "CANDY", "B", none, 5, 5⟩] [2019, 2020] ∧
    "B|" ∉ identify_fixed_basket_items
      [⟨2019, "CANDY", "A", none, 10, 10⟩, ⟨2020, "CANDY", "A", none, 12, 12⟩,
       ⟨2019, "CANDY", "B", none, 5, 5⟩] [2019, 2020] := by
  constructor
  · exact (c2_fixed_basket_complete _ [2019, 2020] "A|").1.mpr ⟨by decide, by decide⟩
  · intro h
    have := ((c2_fixed_basket_complete _ [2019, 2020] "B|").1.mp h).2 2020 (by decide)
    revert this
    decide

/-! ## Claim C3 — end-to-end example -/

/-- Item A, 2019: price 10.00. -/
def rA9 : CommissaryRow := ⟨2019, "CANDY", "A", none, 10, 10⟩

/-- Item A, 2020: price 12.00. -/
def rA0 : CommissaryRow := ⟨2020, "CANDY", "A", none, 12, 12⟩

/-- Item B, 2019 only: price 5.00. -/
def rB9 : CommissaryRow := ⟨2019, "CANDY", "B", none, 5, 5⟩

/-- The end-to-end example frame of the spec. -/
def df_ab : List CommissaryRow := [rA9, rA0, rB9]

/-- Evaluation of the item-level output on the example frame `df_ab`. -/
theorem df_ab_item_level_eval :
    (calculate_commissary_inflation df_ab [2019, 2020]).item_level =
      [⟨2019, "CANDY", "Food at home", "A", none, 10, "non-essential", none, .val 0⟩,
       ⟨2020, "CANDY", "Food at home", "A", none, 12, "non-essential",
        some (.val 20), .val 20⟩] := by
  have hb : identify_fixed_basket_items df_ab [2019, 2020] = ["A|"] := by decide
  have hf : basket_filter df_ab [2019, 2020] = [rA9, rA0] := by decide
  have hsort : sort_by (fun (a b : CommissaryRow) => decide (a.year ≤ b.year))
      (List.filter (fun r => item_id r == "A|") [rA9, rA0]) = [rA9, rA0] := by decide
  have hhead : (List.filter (fun (r : CommissaryRow) => r.year == 2019)
      [rA9, rA0]).head? = some rA9 := by decide
  have hprev : (List.filter (fun (q : CommissaryRow) => q.year == 2020 - 1)
      [rA9, rA0]).head? = some rA9 := by decide
  have hmin : py_min [2019, 2020] = 2019 := by decide
  have hcl : classify_item_essential "A" "CANDY" = "non-essential" := by decide
  have hcpi : row_cpi_category rA9 = "Food at home" := by decide
  show item_level_calc df_ab [2019, 2020] = _
  simp only [item_level_calc, hb, hf, hsort, List.map_cons, List.map_nil]
  rw [if_neg (by decide : ¬ ([rA9, rA0].length < ([2019, 2020] : List Int).length))]
  simp only [item_series, hhead, hprev, hmin, hcl, hcpi, List.map_cons, List.map_nil,
    List.flatten_cons, List.flatten_nil, List.append_nil]
  norm_num [rA9, rA0, price_avg, pct_change, hcl]

/-- C3: on the concrete frame (A: 10.00 in 2019, 12.00 in 2020; B: 5.00 in
2019 only) with required years 2019-2020, the fixed basket is exactly A
(B lacks 2020), and A's item-level series is: 2019 price 10, yoy null,
cumulative 0; 2020 price 12, yoy 20, cumulative 20 — the price per
observation being `(price_min + price_max) / 2`. -/
theorem c3_end_to_end :
    identify_fixed_basket_items df_ab [2019, 2020] = ["A|"] ∧
    (calculate_commissary_inflation df_ab [2019, 2020]).item_level =
      [⟨2019, "CANDY", "Food at home", "A", none, 10, "non-essential", none, .val 0⟩,
       ⟨2020, "CANDY", "Food at home", "A", none, 12, "non-essential",
        some (.val 20), .val 20⟩] :=
  ⟨by decide, df_ab_item_level_eval⟩

/-! ## Claim C1 — baseline invariant -/

theorem head?_mem {l : List α} {a : α} (h : l.head? = some a) : a ∈ l := by
  cases l <;> simp_all

theorem basket_filter_subset {df : List CommissaryRow} {req : List Int}
    {r : CommissaryRow} (h : r ∈ basket_filter df req) : r ∈ df :=
  (List.mem_filter.mp h).1

/-- Item-level: every record of the baseline year 2019 has cumulative 0,
given positive prices and one observation per item and year. -/
theorem item_level_cum_at_2019 (df : List CommissaryRow) (req : List Int)
    (hpos : ∀ r ∈ df, 0 < price_avg r)
    (huniq : ∀ r ∈ df, ∀ s ∈ df, item_id r = item_id s → r.year = s.year → r = s) :
    ∀ rec ∈ item_level_calc df req, rec.year = 2019 →
      rec.cumulative_inflation_pct = .val 0 := by
  intro rec hrec hy
  unfold item_level_calc at hrec
  simp only [List.mem_flatten, List.mem_map] at hrec
  obtain ⟨l, ⟨id, hid, hl⟩, hrecl⟩ := hrec
  subst hl
  by_cases hlen : (sort_by (fun (a b : CommissaryRow) => decide (a.year ≤ b.year))
      ((basket_filter df req).filter (fun r => item_id r == id))).length < req.length
  · rw [if_pos hlen] at hrecl
    exact absurd hrecl (List.not_mem_nil rec)
  · rw [if_neg hlen] at hrecl
    set item_data := sort_by (fun (a b : CommissaryRow) => decide (a.year ≤ b.year))
      ((basket_filter df req).filter (fun r => item_id r == id)) with hdata
    have hsub : ∀ q ∈ item_data, q ∈ df ∧ item_id q = id := by
      intro q hq
      rw [hdata, mem_sort_by, List.mem_filter] at hq
      exact ⟨basket_filter_subset hq.1, by simpa using hq.2⟩
    cases hcase : item_data with
    | nil =>
      rw [hcase] at hrecl
      simp [item_series] at hrecl
    | cons hd tl =>
      rw [hcase] at hrecl
      unfold item_series at hrecl
      cases hbrow : ((hd :: tl).filter (fun r => r.year == 2019)).head? with
      | none => rw [hbrow] at hrecl; exact absurd hrecl (List.not_mem_nil rec)
      | some brow =>
        rw [hbrow] at hrecl
        simp only [List.mem_map] at hrecl
        obtain ⟨r, hr, hreq⟩ := hrecl
        have hbrow_mem : brow ∈ (hd :: tl).filter (fun q => q.year == 2019) :=
          head?_mem hbrow
        rw [List.mem_filter] at hbrow_mem
        have hbrow_year : brow.year = 2019 := by simpa using hbrow_mem.2
        have hbrow_df := hsub brow (hcase ▸ hbrow_mem.1)
        have hr_df := hsub r (hcase ▸ hr)
        have hyr : r.year = 2019 := by
          have : rec.year = r.year := by rw [← hreq]
          omega
        have hreqb : r = brow :=
          huniq r hr_df.1 brow hbrow_df.1 (hr_df.2.trans hbrow_df.2.symm)
            (hyr.trans hbrow_year.symm)
        have hcum : rec.cumulative_inflation_pct =
            pct_change (price_avg r) (price_avg brow) := by rw [← hreq]
        rw [hcum, hreqb, pct_change_self (ne_of_gt (hpos brow hbrow_df.1))]

/-- Category-level: every record of the baseline year 2019 has cumulative
`some 0`, given positive prices. -/
theorem category_level_cum_at_2019 (df : List CommissaryRow) (req : List Int)
    (hpos : ∀ r ∈ df, 0 < price_avg r) :
    ∀ rec ∈ category_level_calc (basket_filter df req), rec.year = 2019 →
      rec.cumulative_inflation_pct = some (.val 0) := by
  intro rec hrec hy
  unfold category_level_calc at hrec
  simp only [List.mem_flatten, List.mem_map] at hrec
  obtain ⟨l, ⟨y, hymem, hl⟩, hrecl⟩ := hrec
  subst hl
  simp only [List.mem_map] at hrecl
  obtain ⟨cat, hcat, hreq⟩ := hrecl
  have hyy : y = 2019 := by
    have : rec.year = y := by rw [← hreq]
    omega
  subst hyy
  obtain ⟨r0, hr0, hr0cat⟩ : ∃ r ∈ (basket_filter df req).filter
      (fun r => r.year == (2019 : Int)), r.category = cat := by
    rw [mem_dedup_first, List.mem_map] at hcat
    obtain ⟨r0, h1, h2⟩ := hcat
    exact ⟨r0, h1, h2⟩
  have hfilter : ((basket_filter df req).filter (fun r => r.year == (2019 : Int))).filter
      (fun r => r.category == cat) =
      (basket_filter df req).filter (fun r => r.category == cat && r.year == (2019 : Int)) :=
    List.filter_filter _ _
  have hne : ((basket_filter df req).filter (fun r => r.year == (2019 : Int))).filter
      (fun r => r.category == cat) ≠ [] := by
    intro hnil
    have : r0 ∈ (((basket_filter df req).filter (fun r => r.year == (2019 : Int))).filter
        (fun r => r.category == cat)) := by
      rw [List.mem_filter]
      exact ⟨hr0, by simpa using hr0cat⟩
    rw [hnil] at this
    exact absurd this (List.not_mem_nil r0)
  have hposc : ∀ x ∈ (((basket_filter df req).filter (fun r => r.year == (2019 : Int))).filter
      (fun r => r.category == cat)).map price_avg, 0 < x := by
    intro x hx
    rw [List.mem_map] at hx
    obtain ⟨q, hq, hqx⟩ := hx
    have : q ∈ df := basket_filter_subset (List.mem_filter.mp (List.mem_filter.mp hq).1).1
    exact hqx ▸ hpos q this
  have havg : 0 < qmean ((((basket_filter df req).filter (fun r => r.year == (2019 : Int))).filter
      (fun r => r.category == cat)).map price_avg) :=
    qmean_pos hposc (by simpa using hne)
  have hcum : rec.cumulative_inflation_pct =
      (if ((basket_filter df req).filter
            (fun r => r.category == cat && r.year == (2019 : Int))).isEmpty then none
       else some (pct_change
        (qmean ((((basket_filter df req).filter (fun r => r.year == (2019 : Int))).filter
          (fun r => r.category == cat)).map price_avg))
        (qmean (((basket_filter df req).filter
          (fun r => r.category == cat && r.year == (2019 : Int))).map price_avg)))) := by
    rw [← hreq]
  rw [hcum, ← hfilter, if_neg (by simpa [List.isEmpty_iff] using hne),
    pct_change_self (ne_of_gt havg)]

/-- CPI-category-level: every record of the baseline year 2019 has
cumulative `some 0`, given positive prices. -/
theorem cpi_category_level_cum_at_2019 (df : List CommissaryRow) (req : List Int)
    (hpos : ∀ r ∈ df, 0 < price_avg r) :
    ∀ rec ∈ cpi_category_level_calc (basket_filter df req), rec.year = 2019 →
      rec.cumulative_inflation_pct = some (.val 0) := by
  intro rec hrec hy
  unfold cpi_category_level_calc at hrec
  simp only [List.mem_flatten, List.mem_map] at hrec
  obtain ⟨l, ⟨y, hymem, hl⟩, hrecl⟩ := hrec
  subst hl
  simp only [List.mem_map] at hrecl
  obtain ⟨cat, hcat, hreq⟩ := hrecl
  have hyy : y = 2019 := by
    have : rec.year = y := by rw [← hreq]
    omega
  subst hyy
  obtain ⟨r0, hr0, hr0cat⟩ : ∃ r ∈ (basket_filter df req).filter
      (fun r => r.year == (2019 : Int)), row_cpi_category r = cat := by
    rw [mem_dedup_first, List.mem_map] at hcat
    obtain ⟨r0, h1, h2⟩ := hcat
    exact ⟨r0, h1, h2⟩
  have hfilter : ((basket_filter df req).filter (fun r => r.year == (2019 : Int))).filter
      (fun r => row_cpi_category r == cat) =
      (basket_filter df req).filter
        (fun r => row_cpi_category r == cat && r.year == (2019 : Int)) :=
    List.filter_filter _ _
  have hne : ((basket_filter df req).filter (fun r => r.year == (2019 : Int))).filter
      (fun r => row_cpi_category r == cat) ≠ [] := by
    intro hnil
    have : r0 ∈ (((basket_filter df req).filter (fun r => r.year == (2019 : Int))).filter
        (fun r => row_cpi_category r == cat)) := by
      rw [List.mem_filter]
      exact ⟨hr0, by simpa using hr0cat⟩
    rw [hnil] at this
    exact absurd this (List.not_mem_nil r0)
  have hposc : ∀ x ∈ (((basket_filter df req).filter (fun r => r.year == (2019 : Int))).filter
      (fun r => row_cpi_category r == cat)).map price_avg, 0 < x := by
    intro x hx
    rw [List.mem_map] at hx
    obtain ⟨q, hq, hqx⟩ := hx
    have : q ∈ df := basket_filter_subset (List.mem_filter.mp (List.mem_filter.mp hq).1).1
    exact hqx ▸ hpos q this
  have havg : 0 < qmean ((((basket_filter df req).filter
      (fun r => r.year == (2019 : Int))).filter
      (fun r => row_cpi_category r == cat)).map price_avg) :=
    qmean_pos hposc (by simpa using hne)
  have hcum : rec.cumulative_inflation_pct =
      (if ((basket_filter df req).filter
            (fun r => row_cpi_category r == cat && r.year == (2019 : Int))).isEmpty then none
       else some (pct_change
        (qmean ((((basket_filter df req).filter (fun r => r.year == (2019 : Int))).filter
          (fun r => row_cpi_category r == cat)).map price_avg))
        (qmean (((basket_filter df req).filter
          (fun r => row_cpi_category r == cat && r.year == (2019 : Int))).map price_avg)))) := by
    rw [← hreq]
  rw [hcum, ← hfilter, if_neg (by simpa [List.isEmpty_iff] using hne),
    pct_change_self (ne_of_gt havg)]

theorem series_mean_of_ne_nil {l : List ℚ} (h : l ≠ []) : series_mean l = .val (qmean l) := by
  cases l with
  | nil => exact absurd rfl h
  | cons a t => rfl

/-- Overall level: the record of the baseline year 2019 has cumulative 0,
given positive prices. -/
theorem overall_cum_at_2019 (df : List CommissaryRow) (req : List Int)
    (hpos : ∀ r ∈ df, 0 < price_avg r) :
    ∀ rec ∈ overall_calc (basket_filter df req), rec.year = 2019 →
      rec.cumulative_inflation_pct = .val 0 := by
  intro rec hrec hy
  unfold overall_calc at hrec
  simp only [List.mem_map] at hrec
  obtain ⟨y, hymem, hreq⟩ := hrec
  have hyy : y = 2019 := by
    have : rec.year = y := by rw [← hreq]
    omega
  subst hyy
  have hne : (basket_filter df req).filter (fun r => r.year == (2019 : Int)) ≠ [] := by
    rw [mem_sort_by, mem_dedup_first, List.mem_map] at hymem
    obtain ⟨r0, hr0, hr0y⟩ := hymem
    intro hnil
    have : r0 ∈ (basket_filter df req).filter (fun r => r.year == (2019 : Int)) := by
      rw [List.mem_filter]
      exact ⟨hr0, by simpa using hr0y⟩
    rw [hnil] at this
    exact absurd this (List.not_mem_nil r0)
  have hposc : ∀ x ∈ ((basket_filter df req).filter
      (fun r => r.year == (2019 : Int))).map price_avg, 0 < x := by
    intro x hx
    rw [List.mem_map] at hx
    obtain ⟨q, hq, hqx⟩ := hx
    exact hqx ▸ hpos q (basket_filter_subset (List.mem_filter.mp hq).1)
  have hmapne : ((basket_filter df req).filter
      (fun r => r.year == (2019 : Int))).map price_avg ≠ [] := by
    simpa using hne
  have havg : 0 < qmean (((basket_filter df req).filter
      (fun r => r.year == (2019 : Int))).map price_avg) := qmean_pos hposc hmapne
  have hcum : rec.cumulative_inflation_pct =
      pct_change_f
        (.val (qmean (((basket_filter df req).filter
          (fun r => r.year == (2019 : Int))).map price_avg)))
        (series_mean (((basket_filter df req).filter
          (fun r => r.year == (2019 : Int))).map price_avg)) := by
    rw [← hreq]
  rw [hcum, series_mean_of_ne_nil hmapne]
  exact pct_change_self (ne_of_gt havg)

/-- C1 (amended): for every series produced by the calculator — item,
category, cpi_category and overall — the cumulative percentage at the year
2019 is exactly 0, for every required-year range, provided all prices are
positive and there is one observation per item and year.  2019 is the
baseline hardcoded in the source; it coincides with the minimum required
year only for ranges starting at 2019, and the claim's min-year form fails
for other ranges (see the counterexample). -/
theorem c1_baseline_invariant (df : List CommissaryRow) (required_years : List Int)
    (hpos : ∀ r ∈ df, 0 < price_avg r)
    (huniq : ∀ r ∈ df, ∀ s ∈ df, item_id r = item_id s → r.year = s.year → r = s) :
    (∀ rec ∈ (calculate_commissary_inflation df required_years).item_level,
      rec.year = 2019 → rec.cumulative_inflation_pct = .val 0) ∧
    (∀ rec ∈ (calculate_commissary_inflation df required_years).category_level,
      rec.year = 2019 → rec.cumulative_inflation_pct = some (.val 0)) ∧
    (∀ rec ∈ (calculate_commissary_inflation df required_years).cpi_category_level,
      rec.year = 2019 → rec.cumulative_inflation_pct = some (.val 0)) ∧
    (∀ rec ∈ (calculate_commissary_inflation df required_years).overall,
      rec.year = 2019 → rec.cumulative_inflation_pct = .val 0) :=
  ⟨item_level_cum_at_2019 df required_years hpos huniq,
   category_level_cum_at_2019 df required_years hpos,
   cpi_category_level_cum_at_2019 df required_years hpos,
   overall_cum_at_2019 df required_years hpos⟩

/-- C1 witness: the amended invariant applied to the concrete frame
`df_ab` with required years 2019-2020, at A's concrete 2019 record. -/
theorem c1_baseline_invariant_witness :
    (⟨2019, "CANDY", "Food at home", "A", none, 10, "non-essential", none,
      .val 0⟩ : ItemInflationRecord).cumulative_inflation_pct = .val 0 :=
  (c1_baseline_invariant df_ab [2019, 2020]
      (by norm_num [df_ab, rA9, rA0, rB9, price_avg])
      (by decide)).1
    ⟨2019, "CANDY", "Food at home", "A", none, 10, "non-essential", none, .val 0⟩
    (by rw [df_ab_item_level_eval]; exact List.mem_cons_self _ _)
    rfl

/-- Item X, observed 2019-2021 with prices 8, 10, 12. -/
def rX8 : CommissaryRow := ⟨2019, "CANDY", "X", none, 8, 8⟩

def rX0 : CommissaryRow := ⟨2020, "CANDY", "X", none, 10, 10⟩

def rX1 : CommissaryRow := ⟨2021, "CANDY", "X", none, 12, 12⟩

/-- A frame whose item also has a 2019 observation outside the required
range 2020-2021. -/
def df_c1 : List CommissaryRow := [rX8, rX0, rX1]

/-- C1 counterexample: with required years 2020-2021 (minimum 2020), item
X is in the fixed basket, but its cumulative percentage at the minimum
required year 2020 is 25 (relative to the hardcoded 2019 baseline), not 0:
the claim fails for ranges that do not start at 2019. -/
theorem c1_counterexample :
    py_min [2020, 2021] = 2020 ∧
    (calculate_commissary_inflation df_c1 [2020, 2021]).item_level =
      [⟨2019, "CANDY", "Food at home", "X", none, 8, "non-essential", none, .val 0⟩,
       ⟨2020, "CANDY", "Food at home", "X", none, 10, "non-essential", none, .val 25⟩,
       ⟨2021, "CANDY", "Food at home", "X", none, 12, "non-essential",
        some (.val 20), .val 50⟩] ∧
    PFloat.val 25 ≠ PFloat.val 0 := by
  refine ⟨by decide, ?_, by decide⟩
  have hb : identify_fixed_basket_items df_c1 [2020, 2021] = ["X|"] := by decide
  have hf : basket_filter df_c1 [2020, 2021] = [rX8, rX0, rX1] := by decide
  have hsort : sort_by (fun (a b : CommissaryRow) => decide (a.year ≤ b.year))
      (List.filter (fun r => item_id r == "X|") [rX8, rX0, rX1]) = [rX8, rX0, rX1] := by
    decide
  have hhead : (List.filter (fun (r : CommissaryRow) => r.year == 2019)
      [rX8, rX0, rX1]).head? = some rX8 := by decide
  have hprev : (List.filter (fun (q : CommissaryRow) => q.year == 2021 - 1)
      [rX8, rX0, rX1]).head? = some rX0 := by decide
  have hmin : py_min [2020, 2021] = 2020 := by decide
  have hcl : classify_item_essential "X" "CANDY" = "non-essential" := by decide
  have hcpi : row_cpi_category rX8 = "Food at home" := by decide
  show item_level_calc df_c1 [2020, 2021] = _
  simp only [item_level_calc, hb, hf, hsort, List.map_cons, List.map_nil]
  rw [if_neg (by decide :
    ¬ ([rX8, rX0, rX1].length < ([2020, 2021] : List Int).length))]
  simp only [item_series, hhead, hprev, hmin, hcl, hcpi, List.map_cons, List.map_nil,
    List.flatten_cons, List.flatten_nil, List.append_nil]
  norm_num [rX8, rX0, rX1, price_avg, pct_change, hcl]

/-! ## Claim C4 — null handling -/

/-- Item Z with a zero 2019 price. -/
def rZ9 : CommissaryRow := ⟨2019, "CANDY", "Z", none, 0, 0⟩

def rZ0 : CommissaryRow := ⟨2020, "CANDY", "Z", none, 1, 1⟩

/-- A frame whose baseline-year price is zero. -/
def df_zero : List CommissaryRow := [rZ9, rZ0]

/-- Item Y with no 2019 observation. -/
def rY0 : CommissaryRow := ⟨2020, "CANDY", "Y", none, 10, 10⟩

def rY1 : CommissaryRow := ⟨2021, "CANDY", "Y", none, 12, 12⟩

/-- A frame with no baseline-year (2019) observation at all. -/
def df_nobase : List CommissaryRow := [rY0, rY1]

/-- C4 counterexample.  (i) With a zero 2019 baseline price, the item-level
cumulative values are NaN (at 2019) and +inf (at 2020) — IEEE non-finite
values, not nulls.  (ii) With no 2019 observation, the item is in the
fixed basket for required years 2020-2021, yet its entire item-level
series is silently dropped (the `continue` at lines 146-147).  Both refute
the claim that these conditions yield propagated nulls and no dropped
series. -/
theorem c4_counterexample :
    ((calculate_commissary_inflation df_zero [2019, 2020]).item_level =
      [⟨2019, "CANDY", "Food at home", "Z", none, 0, "non-essential", none, .nan⟩,
       ⟨2020, "CANDY", "Food at home", "Z", none, 1, "non-essential",
        some .posInf, .posInf⟩]) ∧
    identify_fixed_basket_items df_nobase [2020, 2021] = ["Y|"] ∧
    (calculate_commissary_inflation df_nobase [2020, 2021]).item_level = [] := by
  refine ⟨?_, by decide, ?_⟩
  · have hb : identify_fixed_basket_items df_zero [2019, 2020] = ["Z|"] := by decide
    have hf : basket_filter df_zero [2019, 2020] = [rZ9, rZ0] := by decide
    have hsort : sort_by (fun (a b : CommissaryRow) => decide (a.year ≤ b.year))
        (List.filter (fun r => item_id r == "Z|") [rZ9, rZ0]) = [rZ9, rZ0] := by decide
    have hhead : (List.filter (fun (r : CommissaryRow) => r.year == 2019)
        [rZ9, rZ0]).head? = some rZ9 := by decide
    have hprev : (List.filter (fun (q : CommissaryRow) => q.year == 2020 - 1)
        [rZ9, rZ0]).head? = some rZ9 := by decide
    have hmin : py_min [2019, 2020] = 2019 := by decide
    have hcl : classify_item_essential "Z" "CANDY" = "non-essential" := by decide
    have hcpi : row_cpi_category rZ9 = "Food at home" := by decide
    show item_level_calc df_zero [2019, 2020] = _
    simp only [item_level_calc, hb, hf, hsort, List.map_cons, List.map_nil]
    rw [if_neg (by decide : ¬ ([rZ9, rZ0].length < ([2019, 2020] : List Int).length))]
    simp only [item_series, hhead, hprev, hmin, hcl, hcpi, List.map_cons, List.map_nil,
      List.flatten_cons, List.flatten_nil, List.append_nil]
    norm_num [rZ9, rZ0, price_avg, pct_change, hcl]
  · have hb : identify_fixed_basket_items df_nobase [2020, 2021] = ["Y|"] := by decide
    have hf : basket_filter df_nobase [2020, 2021] = [rY0, rY1] := by decide
    have hsort : sort_by (fun (a b : CommissaryRow) => decide (a.year ≤ b.year))
        (List.filter (fun r => item_id r == "Y|") [rY0, rY1]) = [rY0, rY1] := by decide
    have hhead : (List.filter (fun (r : CommissaryRow) => r.year == 2019)
        [rY0, rY1]).head? = (none : Option CommissaryRow) := by decide
    show item_level_calc df_nobase [2020, 2021] = _
    simp only [item_level_calc, hb, hf, hsort, List.map_cons, List.map_nil]
    rw [if_neg (by decide : ¬ ([rY0, rY1].length < ([2020, 2021] : List Int).length))]
    simp only [item_series, hhead, List.flatten_cons, List.flatten_nil, List.append_nil]

/-- C4 (amended): at item level, a missing previous-year observation —
within the basket-filtered frame, for the record's item id — makes the
year-over-year result null (Python `None`), and the run continues.  The
claim's other conditions do not yield nulls: a zero baseline price gives
IEEE non-finite values, and an item with no 2019 observation is silently
dropped from the item-level output (see the counterexample). -/
theorem c4_missing_prior_year_null (df : List CommissaryRow) (required_years : List Int) :
    ∀ rec ∈ (calculate_commissary_inflation df required_years).item_level,
      (∀ r ∈ basket_filter df required_years,
        item_id r = rec.item_name ++ "|" ++ rec.size.getD "" → r.year ≠ rec.year - 1) →
      rec.yoy_inflation_pct = none := by
  intro rec hrec hnone
  have hrec' : rec ∈ item_level_calc df required_years := hrec
  unfold item_level_calc at hrec'
  simp only [List.mem_flatten, List.mem_map] at hrec'
  obtain ⟨l, ⟨id, hid, hl⟩, hrecl⟩ := hrec'
  subst hl
  by_cases hlen : (sort_by (fun (a b : CommissaryRow) => decide (a.year ≤ b.year))
      ((basket_filter df required_years).filter (fun r => item_id r == id))).length <
      required_years.length
  · rw [if_pos hlen] at hrecl
    exact absurd hrecl (List.not_mem_nil rec)
  · rw [if_neg hlen] at hrecl
    set item_data := sort_by (fun (a b : CommissaryRow) => decide (a.year ≤ b.year))
      ((basket_filter df required_years).filter (fun r => item_id r == id)) with hdata
    have hsub : ∀ q ∈ item_data, q ∈ basket_filter df required_years ∧ item_id q = id := by
      intro q hq
      rw [hdata, mem_sort_by, List.mem_filter] at hq
      exact ⟨hq.1, by simpa using hq.2⟩
    cases hcase : item_data with
    | nil =>
      rw [hcase] at hrecl
      simp [item_series] at hrecl
    | cons hd tl =>
      rw [hcase] at hrecl
      unfold item_series at hrecl
      cases hbrow : ((hd :: tl).filter (fun r => r.year == 2019)).head? with
      | none => rw [hbrow] at hrecl; exact absurd hrecl (List.not_mem_nil rec)
      | some brow =>
        rw [hbrow] at hrecl
        simp only [List.mem_map] at hrecl
        obtain ⟨r, hr, hreq⟩ := hrecl
        have hhd := hsub hd (hcase ▸ List.mem_cons_self hd tl)
        have hidrec : id = rec.item_name ++ "|" ++ rec.size.getD "" := by
          rw [← hreq]
          exact hhd.2.symm
        have hyear : rec.year = r.year := by rw [← hreq]
        have hfilnil : (hd :: tl).filter (fun q => q.year == r.year - 1) = [] := by
          rw [List.filter_eq_nil_iff]
          intro q hq
          have hq' := hsub q (hcase ▸ hq)
          have := hnone q hq'.1 (hq'.2.trans hidrec)
          simp only [beq_iff_eq]
          omega
        have hyoy : rec.yoy_inflation_pct =
            (if r.year > py_min required_years then
              match ((hd :: tl).filter (fun q => q.year == r.year - 1)).head? with
              | some prev => some (pct_change (price_avg r) (price_avg prev))
              | none => none
            else none) := by rw [← hreq]
        rw [hyoy, hfilnil]
        by_cases hgt : r.year > py_min required_years
        · rw [if_pos hgt]
          rfl
        · rw [if_neg hgt]


/-- C4 witness: on the example frame, A's 2019 record has no 2018
observation, and its year-over-year value is null. -/
theorem c4_missing_prior_year_null_witness :
    (⟨2019, "CANDY", "Food at home", "A", none, 10, "non-essential", none,
      .val 0⟩ : ItemInflationRecord).yoy_inflation_pct = none :=
  c4_missing_prior_year_null df_ab [2019, 2020]
    ⟨2019, "CANDY", "Food at home", "A", none, 10, "non-essential", none, .val 0⟩
    (by rw [df_ab_item_level_eval]; exact List.mem_cons_self _ _)
    (by decide)

/-! ## Claim C5 — group aggregation refines the spec formulas -/

/-- Category-level refinement: each produced record carries the unweighted
mean price of its group and year, and cumulative / year-over-year values
given by the spec's group formulas. -/
theorem category_level_refines_spec (fdf : List CommissaryRow) :
    ∀ rec ∈ category_level_calc fdf,
      rec.avg_price = spec_group_avg_price fdf (fun r => r.category == rec.category) rec.year ∧
      rec.cumulative_inflation_pct =
        spec_group_cumulative fdf (fun r => r.category == rec.category) rec.year ∧
      rec.yoy_inflation_pct =
        spec_group_yoy fdf (fun r => r.category == rec.category) rec.year := by
  intro rec hrec
  unfold category_level_calc at hrec
  simp only [List.mem_flatten, List.mem_map] at hrec
  obtain ⟨l, ⟨y, hymem, hl⟩, hrecl⟩ := hrec
  subst hl
  simp only [List.mem_map] at hrecl
  obtain ⟨cat, hcat, hreq⟩ := hrecl
  subst hreq
  have hff : (fdf.filter (fun r => r.year == y)).filter (fun r => r.category == cat) =
      fdf.filter (fun r => r.category == cat && r.year == y) :=
    List.filter_filter _ _
  refine ⟨?_, ?_, ?_⟩
  · show qmean _ = _
    simp only [spec_group_avg_price, spec_group_rows]
    rw [hff]
  · show (if _ then _ else _) = _
    simp only [spec_group_cumulative, spec_group_avg_price, spec_group_rows]
    rw [hff]
  · show (if _ then _ else _) = _
    simp only [spec_group_yoy, spec_group_avg_price, spec_group_rows]
    rw [hff]

/-- CPI-category-level refinement, with the computed `cpi_category` column
as the grouping key. -/
theorem cpi_category_level_refines_spec (fdf : List CommissaryRow) :
    ∀ rec ∈ cpi_category_level_calc fdf,
      rec.avg_price =
        spec_group_avg_price fdf (fun r => row_cpi_category r == rec.cpi_category) rec.year ∧
      rec.cumulative_inflation_pct =
        spec_group_cumulative fdf (fun r => row_cpi_category r == rec.cpi_category) rec.year ∧
      rec.yoy_inflation_pct =
        spec_group_yoy fdf (fun r => row_cpi_category r == rec.cpi_category) rec.year := by
  intro rec hrec
  unfold cpi_category_level_calc at hrec
  simp only [List.mem_flatten, List.mem_map] at hrec
  obtain ⟨l, ⟨y, hymem, hl⟩, hrecl⟩ := hrec
  subst hl
  simp only [List.mem_map] at hrecl
  obtain ⟨cat, hcat, hreq⟩ := hrecl
  subst hreq
  have hff : (fdf.filter (fun r => r.year == y)).filter
      (fun r => row_cpi_category r == cat) =
      fdf.filter (fun r => row_cpi_category r == cat && r.year == y) :=
    List.filter_filter _ _
  refine ⟨?_, ?_, ?_⟩
  · show qmean _ = _
    simp only [spec_group_avg_price, spec_group_rows]
    rw [hff]
  · show (if _ then _ else _) = _
    simp only [spec_group_cumulative, spec_group_avg_price, spec_group_rows]
    rw [hff]
  · show (if _ then _ else _) = _
    simp only [spec_group_yoy, spec_group_avg_price, spec_group_rows]
    rw [hff]

/-- Overall-level refinement: the whole basket-filtered frame is one
group.  The guards are needed because the source's overall pass, unlike
the category passes, does not test for an empty baseline or previous-year
slice and produces NaN instead of null there. -/
theorem overall_refines_spec (fdf : List CommissaryRow) :
    ∀ rec ∈ overall_calc fdf,
      rec.avg_price = spec_group_avg_price fdf (fun _ => true) rec.year ∧
      (spec_group_rows fdf (fun _ => true) 2019 ≠ [] →
        spec_group_cumulative fdf (fun _ => true) rec.year =
          some rec.cumulative_inflation_pct) ∧
      (spec_group_rows fdf (fun _ => true) (rec.year - 1) ≠ [] →
        rec.yoy_inflation_pct = spec_group_yoy fdf (fun _ => true) rec.year) := by
  intro rec hrec
  unfold overall_calc at hrec
  simp only [List.mem_map] at hrec
  obtain ⟨y, hymem, hreq⟩ := hrec
  subst hreq
  have hrows : ∀ z : Int, spec_group_rows fdf (fun _ => true) z =
      fdf.filter (fun r => r.year == z) := by
    intro z
    simp [spec_group_rows]
  refine ⟨?_, ?_, ?_⟩
  · show qmean _ = _
    simp only [spec_group_avg_price, hrows]
  · intro hne
    rw [hrows] at hne
    have hmapne : (fdf.filter (fun r => r.year == (2019 : Int))).map price_avg ≠ [] := by
      simpa using hne
    show spec_group_cumulative _ _ _ = some (pct_change_f _ _)
    rw [spec_group_cumulative, if_neg (by simpa [hrows, List.isEmpty_iff] using hne)]
    simp only [spec_group_avg_price, hrows]
    rw [series_mean_of_ne_nil hmapne]
    rfl
  · intro hne
    rw [hrows] at hne
    have hmapne : (fdf.filter (fun r => r.year == y - 1)).map price_avg ≠ [] := by
      simpa using hne
    show (if _ then _ else _) = _
    rw [spec_group_yoy]
    by_cases hy : y > 2019
    · rw [if_pos hy, if_pos hy, if_neg (by simpa [hrows, List.isEmpty_iff] using hne)]
      simp only [spec_group_avg_price, hrows]
      rw [series_mean_of_ne_nil hmapne]
      rfl
    · rw [if_neg hy, if_neg hy]

/-- Item S: prices 1 then 2 (100 percent item inflation). -/
def rS9 : CommissaryRow := ⟨2019, "CANDY", "S", none, 1, 1⟩

def rS0 : CommissaryRow := ⟨2020, "CANDY", "S", none, 2, 2⟩

/-- Item T: price 10 both years (0 percent item inflation). -/
def rT9 : CommissaryRow := ⟨2019, "CANDY", "T", none, 10, 10⟩

def rT0 : CommissaryRow := ⟨2020, "CANDY", "T", none, 10, 10⟩

/-- A frame on which mean-then-inflate differs from the mean of item-level
inflation percentages. -/
def df_sep : List CommissaryRow := [rS9, rS0, rT9, rT0]

/-- On `df_sep`, the 2020 item-level cumulative percentages are 100 (S)
and 0 (T), while the 2020 category-level cumulative percentage is 100/11
(inflating the mean price 5.5 → 6), which differs from the 50 obtained by
averaging the item-level percentages. -/
theorem df_sep_separation :
    ((calculate_commissary_inflation df_sep [2019, 2020]).item_level.filter
      (fun rec => rec.year == 2020)).map (fun rec => rec.cumulative_inflation_pct) =
      [.val 100, .val 0] ∧
    ((calculate_commissary_inflation df_sep [2019, 2020]).category_level.filter
      (fun rec => rec.year == 2020)).map (fun rec => rec.cumulative_inflation_pct) =
      [some (.val (100 / 11))] ∧
    (100 / 11 : ℚ) ≠ (100 + 0) / 2 := by
  have hb : identify_fixed_basket_items df_sep [2019, 2020] = ["S|", "T|"] := by decide
  have hf : basket_filter df_sep [2019, 2020] = [rS9, rS0, rT9, rT0] := by decide
  refine ⟨?_, ?_, by norm_num⟩
  · have hsortS : sort_by (fun (a b : CommissaryRow) => decide (a.year ≤ b.year))
        (List.filter (fun r => item_id r == "S|") [rS9, rS0, rT9, rT0]) =
        [rS9, rS0] := by decide
    have hsortT : sort_by (fun (a b : CommissaryRow) => decide (a.year ≤ b.year))
        (List.filter (fun r => item_id r == "T|") [rS9, rS0, rT9, rT0]) =
        [rT9, rT0] := by decide
    have hheadS : (List.filter (fun (r : CommissaryRow) => r.year == 2019)
        [rS9, rS0]).head? = some rS9 := by decide
    have hheadT : (List.filter (fun (r : CommissaryRow) => r.year == 2019)
        [rT9, rT0]).head? = some rT9 := by decide
    have hprevS : (List.filter (fun (q : CommissaryRow) => q.year == 2020 - 1)
        [rS9, rS0]).head? = some rS9 := by decide
    have hprevT : (List.filter (fun (q : CommissaryRow) => q.year == 2020 - 1)
        [rT9, rT0]).head? = some rT9 := by decide
    have hmin : py_min [2019, 2020] = 2019 := by decide
    have hclS : classify_item_essential "S" "CANDY" = "non-essential" := by decide
    have hclT : classify_item_essential "T" "CANDY" = "non-essential" := by decide
    show ((item_level_calc df_sep [2019, 2020]).filter _).map _ = _
    simp only [item_level_calc, hb, hf, hsortS, hsortT, List.map_cons, List.map_nil]
    rw [if_neg (by decide : ¬ ([rS9, rS0].length < ([2019, 2020] : List Int).length)),
      if_neg (by decide : ¬ ([rT9, rT0].length < ([2019, 2020] : List Int).length))]
    simp only [item_series, hheadS, hheadT, hprevS, hprevT, hmin, hclS, hclT,
      List.map_cons, List.map_nil, List.flatten_cons, List.flatten_nil, List.append_nil]
    norm_num [rS9, rS0, rT9, rT0, price_avg, pct_change, List.filter]
    simp [Int.reduceBEq]
  · have hyears : sort_by (fun (a b : Int) => decide (a ≤ b))
        (dedup_first ([rS9, rS0, rT9, rT0].map (fun r => r.year))) = [2019, 2020] := by
      decide
    have hyd9 : List.filter (fun (r : CommissaryRow) => r.year == (2019 : Int))
        [rS9, rS0, rT9, rT0] = [rS9, rT9] := by decide
    have hyd0 : List.filter (fun (r : CommissaryRow) => r.year == (2020 : Int))
        [rS9, rS0, rT9, rT0] = [rS0, rT0] := by decide
    have hcats9 : dedup_first ([rS9, rT9].map (fun r => r.category)) = ["CANDY"] := by
      decide
    have hcats0 : dedup_first ([rS0, rT0].map (fun r => r.category)) = ["CANDY"] := by
      decide
    have hcd9 : List.filter (fun (r : CommissaryRow) => r.category == "CANDY")
        [rS9, rT9] = [rS9, rT9] := by decide
    have hcd0 : List.filter (fun (r : CommissaryRow) => r.category == "CANDY")
        [rS0, rT0] = [rS0, rT0] := by decide
    have hbase : List.filter
        (fun (r : CommissaryRow) => r.category == "CANDY" && r.year == (2019 : Int))
        [rS9, rS0, rT9, rT0] = [rS9, rT9] := by decide
    have hprevc : List.filter
        (fun (r : CommissaryRow) => r.category == "CANDY" && r.year == 2020 - 1)
        [rS9, rS0, rT9, rT0] = [rS9, rT9] := by decide
    have hq0 : qmean (List.map price_avg [rS0, rT0]) = 6 := by
      norm_num [qmean, price_avg, rS0, rT0]
    have hq9 : qmean (List.map price_avg [rS9, rT9]) = 11 / 2 := by
      norm_num [qmean, price_avg, rS9, rT9]
    have hcpi : row_cpi_category rS9 = "Food at home" := by decide
    have hcpi0 : row_cpi_category rS0 = "Food at home" := by decide
    have hcal : category_level_calc [rS9, rS0, rT9, rT0] =
        [⟨2019, "CANDY", "Food at home", 11 / 2, none, some (.val 0)⟩,
         ⟨2020, "CANDY", "Food at home", 6, some (.val (100 / 11)),
           some (.val (100 / 11))⟩] := by
      simp only [category_level_calc]
      rw [hyears]
      simp only [List.map_cons, List.map_nil]
      rw [hyd9, hyd0, hcats9, hcats0]
      simp only [List.map_cons, List.map_nil]
      rw [hcd9, hcd0, hbase, hprevc, hq9, hq0]
      simp only [List.flatten_cons, List.flatten_nil, List.append_nil,
        List.isEmpty_cons, List.head?_cons, hcpi, hcpi0]
      norm_num [pct_change]
    show ((category_level_calc (basket_filter df_sep [2019, 2020])).filter _).map _ = _
    rw [hf, hcal]
    simp only [List.filter, Int.reduceBEq, List.map_cons, List.map_nil]

/-- Evaluation of the category-level output on the example frame `df_ab`. -/
theorem df_ab_category_level_eval :
    (calculate_commissary_inflation df_ab [2019, 2020]).category_level =
      [⟨2019, "CANDY", "Food at home", 10, none, some (.val 0)⟩,
       ⟨2020, "CANDY", "Food at home", 12, some (.val 20), some (.val 20)⟩] := by
  have hf : basket_filter df_ab [2019, 2020] = [rA9, rA0] := by decide
  have hyears : sort_by (fun (a b : Int) => decide (a ≤ b))
      (dedup_first ([rA9, rA0].map (fun r => r.year))) = [2019, 2020] := by decide
  have hyd9 : List.filter (fun (r : CommissaryRow) => r.year == (2019 : Int))
      [rA9, rA0] = [rA9] := by decide
  have hyd0 : List.filter (fun (r : CommissaryRow) => r.year == (2020 : Int))
      [rA9, rA0] = [rA0] := by decide
  have hcats9 : dedup_first ([rA9].map (fun r => r.category)) = ["CANDY"] := by decide
  have hcats0 : dedup_first ([rA0].map (fun r => r.category)) = ["CANDY"] := by decide
  have hcd9 : List.filter (fun (r : CommissaryRow) => r.category == "CANDY")
      [rA9] = [rA9] := by decide
  have hcd0 : List.filter (fun (r : CommissaryRow) => r.category == "CANDY")
      [rA0] = [rA0] := by decide
  have hbase : List.filter
      (fun (r : CommissaryRow) => r.category == "CANDY" && r.year == (2019 : Int))
      [rA9, rA0] = [rA9] := by decide
  have hprevc : List.filter
      (fun (r : CommissaryRow) => r.category == "CANDY" && r.year == 2020 - 1)
      [rA9, rA0] = [rA9] := by decide
  have hq9 : qmean (List.map price_avg [rA9]) = 10 := by
    norm_num [qmean, price_avg, rA9]
  have hq0 : qmean (List.map price_avg [rA0]) = 12 := by
    norm_num [qmean, price_avg, rA0]
  have hcpi : row_cpi_category rA9 = "Food at home" := by decide
  have hcpi0 : row_cpi_category rA0 = "Food at home" := by decide
  show category_level_calc (basket_filter df_ab [2019, 2020]) = _
  rw [hf]
  simp only [category_level_calc]
  rw [hyears]
  simp only [List.map_cons, List.map_nil]
  rw [hyd9, hyd0, hcats9, hcats0]
  simp only [List.map_cons, List.map_nil]
  rw [hcd9, hcd0, hbase, hprevc, hq9, hq0]
  simp only [List.flatten_cons, List.flatten_nil, List.append_nil,
    List.isEmpty_cons, List.head?_cons, hcpi, hcpi0]
  norm_num [pct_change]

/-- C5: each group-level record (category, cpi_category, overall) carries
as its price level the unweighted mean of `price_avg` over the group's
basket observations for its year, and its cumulative / year-over-year
percentages come from applying the item-level formulas to that group
price series against the group's own 2019 baseline mean (spec_group
formulas); the overall pass needs non-emptiness guards because its
baseline / previous-year means are unguarded in the source.  Moreover the
result is not the average of item-level percentages: on `df_sep` the 2020
category cumulative is 100/11 while the item-level cumulatives average
to 50. -/
theorem c5_group_aggregation (df : List CommissaryRow) (required_years : List Int) :
    (∀ rec ∈ (calculate_commissary_inflation df required_years).category_level,
      rec.avg_price = spec_group_avg_price (basket_filter df required_years)
        (fun r => r.category == rec.category) rec.year ∧
      rec.cumulative_inflation_pct = spec_group_cumulative (basket_filter df required_years)
        (fun r => r.category == rec.category) rec.year ∧
      rec.yoy_inflation_pct = spec_group_yoy (basket_filter df required_years)
        (fun r => r.category == rec.category) rec.year) ∧
    (∀ rec ∈ (calculate_commissary_inflation df required_years).cpi_category_level,
      rec.avg_price = spec_group_avg_price (basket_filter df required_years)
        (fun r => row_cpi_category r == rec.cpi_category) rec.year ∧
      rec.cumulative_inflation_pct = spec_group_cumulative (basket_filter df required_years)
        (fun r => row_cpi_category r == rec.cpi_category) rec.year ∧
      rec.yoy_inflation_pct = spec_group_yoy (basket_filter df required_years)
        (fun r => row_cpi_category r == rec.cpi_category) rec.year) ∧
    (∀ rec ∈ (calculate_commissary_inflation df required_years).overall,
      rec.avg_price = spec_group_avg_price (basket_filter df required_years)
        (fun _ => true) rec.year ∧
      (spec_group_rows (basket_filter df required_years) (fun _ => true) 2019 ≠ [] →
        spec_group_cumulative (basket_filter df required_years) (fun _ => true) rec.year =
          some rec.cumulative_inflation_pct) ∧
      (spec_group_rows (basket_filter df required_years) (fun _ => true) (rec.year - 1) ≠ [] →
        rec.yoy_inflation_pct =
          spec_group_yoy (basket_filter df required_years) (fun _ => true) rec.year)) ∧
    (((calculate_commissary_inflation df_sep [2019, 2020]).item_level.filter
        (fun rec => rec.year == 2020)).map (fun rec => rec.cumulative_inflation_pct) =
      [.val 100, .val 0] ∧
     ((calculate_commissary_inflation df_sep [2019, 2020]).category_level.filter
        (fun rec => rec.year == 2020)).map (fun rec => rec.cumulative_inflation_pct) =
      [some (.val (100 / 11))] ∧
     (100 / 11 : ℚ) ≠ (100 + 0) / 2) :=
  ⟨category_level_refines_spec (basket_filter df required_years),
   cpi_category_level_refines_spec (basket_filter df required_years),
   overall_refines_spec (basket_filter df required_years),
   df_sep_separation⟩

/-- C5 witness: on `df_ab` with required years 2019-2020, the concrete
2020 category record (avg 12, cumulative 20) is produced, and the spec's
group-cumulative formula on the basket frame gives the same 20. -/
theorem c5_group_aggregation_witness :
    (⟨2020, "CANDY", "Food at home", 12, some (.val 20), some (.val 20)⟩ :
        CategoryInflationRecord) ∈
      (calculate_commissary_inflation df_ab [2019, 2020]).category_level ∧
    spec_group_cumulative (basket_filter df_ab [2019, 2020])
      (fun r => r.category == "CANDY") 2020 = some (.val 20) := by
  have hmem : (⟨2020, "CANDY", "Food at home", 12, some (.val 20), some (.val 20)⟩ :
      CategoryInflationRecord) ∈
      (calculate_commissary_inflation df_ab [2019, 2020]).category_level := by
    rw [df_ab_category_level_eval]
    exact List.mem_cons_of_mem _ (List.mem_cons_self _ _)
  have h := ((c5_group_aggregation df_ab [2019, 2020]).1 _ hmem).2.1
  exact ⟨hmem, h.symm⟩

/-! ## Claim C6 — normalizer idempotence -/

/-- C6 counterexample: the pair `("A 5", "")` is itself an output of the
normalizer (on input `("A 5 12", "")`), yet normalizing it again strips
the now-trailing integer and returns `("A", "")` — the normalizer is not
idempotent on its own outputs. -/
theorem c6_counterexample :
    clean_item_name (chars "A 5 12") [] = (chars "A 5", []) ∧
    clean_item_name (chars "A 5") [] = (chars "A", []) ∧
    chars "A" ≠ chars "A 5" := by
  decide

/-- C6 (amended): idempotence holds exactly on stage-fixed pairs — when
the size is present and fixed by `standardize_size` and the name is fixed
by both price strips, by the trailing-integer strip and by whitespace
collapsing, the normalizer returns the pair unchanged.  (On outputs with
an empty size, or whose name ends in a digit kept only because a larger
integer stood behind it, a second pass can still rewrite — see the
counterexample.) -/
theorem c6_idempotent_on_stage_fixed (n s : List Char) (hs : s ≠ [])
    (hstd : standardize_size s = s)
    (hp1 : strip_price_dollar n = n) (hp2 : strip_price_plain n = n)
    (hti : strip_trailing_int n = n) (hcw : collapse_ws n = n) :
    clean_item_name n s = (n, s) := by
  have hne : s.isEmpty = false := by
    cases s with
    | nil => exact absurd rfl hs
    | cons a t => rfl
  by_cases hx : ends_in_x n = true
  · simp [clean_item_name, hp1, hp2, hne, hx, hstd, hcw]
  · simp [clean_item_name, hp1, hp2, hne, hx, hti, hstd, hcw]

/-- C6 witness: `("CHIPS", "12 oz")` satisfies all the stage-fixed-point
hypotheses and is indeed returned unchanged. -/
theorem c6_idempotent_on_stage_fixed_witness :
    (chars "12 oz" ≠ [] ∧ standardize_size (chars "12 oz") = chars "12 oz" ∧
     strip_price_dollar (chars "CHIPS") = chars "CHIPS" ∧
     strip_price_plain (chars "CHIPS") = chars "CHIPS" ∧
     strip_trailing_int (chars "CHIPS") = chars "CHIPS" ∧
     collapse_ws (chars "CHIPS") = chars "CHIPS") ∧
    clean_item_name (chars "CHIPS") (chars "12 oz") = (chars "CHIPS", chars "12 oz") :=
  ⟨by decide,
   c6_idempotent_on_stage_fixed (chars "CHIPS") (chars "12 oz") (by decide) (by decide)
     (by decide) (by decide) (by decide) (by decide)⟩

/-! ## Claim C7 — dimension extraction

Helper lemmas about characters, `takeWhile`/`dropWhile`, the dimension
matcher, `re.sub`/`re.search` over it, `standardize_size` and whitespace
collapsing, leading to the evaluation of `clean_item_name` on every input
of the shape `"<name> <a> X <b>"`. -/
theorem space_cases {c : Char} (h : is_space c = true) :
    c = ' ' ∨ c = '\t' ∨ c = '\n' ∨ c = '\r' ∨ c = '\x0b' ∨ c = '\x0c' := by
  have := h
  simp only [is_space, Bool.or_eq_true, decide_eq_true_eq] at this
  tauto

theorem space_not_digit {c : Char} (h : is_space c = true) : c.isDigit = false := by
  rcases space_cases h with rfl | rfl | rfl | rfl | rfl | rfl <;> decide

theorem isDigit_not_space {c : Char} (h : c.isDigit = true) : is_space c = false := by
  cases hs : is_space c with
  | false => rfl
  | true => rw [space_not_digit hs] at h; exact absurd h (by simp)

theorem digit_toNat_le {c : Char} (h : c.isDigit = true) : c.toNat ≤ 57 := by
  simp only [Char.isDigit, Bool.and_eq_true, decide_eq_true_eq, Char.le_def] at h
  exact h.2

theorem toLower_digit {c : Char} (h : c.isDigit = true) : c.toLower = c := by
  have h1 := digit_toNat_le h
  rw [Char.toLower, if_neg]
  rintro ⟨h65, _⟩
  omega

theorem toLower_space {c : Char} (h : is_space c = true) : c.toLower = c := by
  rcases space_cases h with rfl | rfl | rfl | rfl | rfl | rfl <;> decide

theorem drop_takeWhile_length (p : Char → Bool) :
    ∀ l : List Char, l.drop (l.takeWhile p).length = l.dropWhile p := by
  intro l
  induction l with
  | nil => rfl
  | cons c r ih =>
    by_cases h : p c = true
    · rw [List.takeWhile_cons_of_pos h, List.dropWhile_cons_of_pos h,
        List.length_cons, List.drop_succ_cons]
      exact ih
    · rw [List.takeWhile_cons_of_neg h, List.dropWhile_cons_of_neg h]
      rfl

theorem mem_of_mem_dropWhile {p : Char → Bool} {c : Char} :
    ∀ {l : List Char}, c ∈ l.dropWhile p → c ∈ l := by
  intro l
  induction l with
  | nil => intro h; exact h
  | cons a r ih =>
    intro h
    by_cases ha : p a = true
    · rw [List.dropWhile_cons_of_pos ha] at h
      exact List.mem_cons_of_mem _ (ih h)
    · rw [List.dropWhile_cons_of_neg ha] at h
      exact h

theorem map_id_on {f : Char → Char} :
    ∀ {l : List Char}, (∀ c ∈ l, f c = c) → l.map f = l := by
  intro l
  induction l with
  | nil => intro _; rfl
  | cons a r ih =>
    intro h
    rw [List.map_cons, h a (List.mem_cons_self _ _), ih (fun c hc => h c (List.mem_cons_of_mem _ hc))]

theorem bool_ne_true {b : Bool} (h : b = false) : ¬ b = true := by
  simp [h]

theorem takeWhile_append_eq {p : Char → Bool} :
    ∀ {u v : List Char}, (∀ c ∈ u, p c = true) →
      (∀ e, v.head? = some e → p e = false) → (u ++ v).takeWhile p = u := by
  intro u
  induction u with
  | nil =>
    intro v _ hv
    cases v with
    | nil => rfl
    | cons e r =>
      rw [List.nil_append, List.takeWhile_cons_of_neg (bool_ne_true (hv e rfl))]
  | cons c u' ih =>
    intro v hu hv
    rw [List.cons_append, List.takeWhile_cons_of_pos (hu c (List.mem_cons_self _ _)),
      ih (fun x hx => hu x (List.mem_cons_of_mem _ hx)) hv]

theorem dropWhile_append_cons {p : Char → Bool} {d : Char} (hd : p d = false) :
    ∀ (w r : List Char), (w ++ d :: r).dropWhile p = w.dropWhile p ++ d :: r := by
  intro w
  induction w with
  | nil => intro r; rw [List.nil_append, List.dropWhile_cons_of_neg (bool_ne_true hd), List.dropWhile_nil, List.nil_append]
  | cons c w' ih =>
    intro r
    by_cases hc : p c = true
    · rw [List.cons_append, List.dropWhile_cons_of_pos hc, List.dropWhile_cons_of_pos hc, ih]
    · rw [List.cons_append, List.dropWhile_cons_of_neg hc, List.dropWhile_cons_of_neg hc,
        List.cons_append]


theorem num_chars_eval {u v : List Char} (hu : u ≠ []) (hud : ∀ c ∈ u, c.isDigit = true)
    (hv : ∀ e, v.head? = some e → (e.isDigit = false ∧ e ≠ '.')) :
    num_chars (u ++ v) = some (u, v) := by
  rw [num_chars]
  have htw : (u ++ v).takeWhile Char.isDigit = u :=
    takeWhile_append_eq hud (fun e he => (hv e he).1)
  rw [htw]
  rw [if_neg (by simpa [List.isEmpty_iff] using hu)]
  rw [List.drop_left]
  cases v with
  | nil => rfl
  | cons e r =>
    have hne : e ≠ '.' := (hv e rfl).2
    simp only []
    split
    · rename_i r2 heq
      exact absurd (List.cons.inj heq).1 hne
    · rfl

theorem match_dim_sp_none {l : List Char} {e : Char} {r : List Char}
    (hdw : l.dropWhile is_space = e :: r) (he : e.isDigit = false) :
    match_dim_sp l = none := by
  rw [match_dim_sp]
  by_cases hsp : (l.takeWhile is_space).isEmpty = true
  · rw [if_pos hsp]
  · rw [if_neg hsp]
    simp only [drop_takeWhile_length, hdw,
      List.takeWhile_cons_of_neg (bool_ne_true he), List.isEmpty_nil, if_true]

theorem dim_no_match {d : Char} (hd2 : d.isDigit = false) (hd3 : is_space d = false)
    (w : List Char) (hw : ∀ x ∈ w, x.isDigit = false) (rest : List Char) :
    match_dim_sp (w ++ d :: rest) = none := by
  have hdw := dropWhile_append_cons (p := is_space) hd3 w rest
  cases hh : w.dropWhile is_space with
  | nil =>
    rw [hh, List.nil_append] at hdw
    exact match_dim_sp_none hdw hd2
  | cons e t =>
    rw [hh, List.cons_append] at hdw
    exact match_dim_sp_none hdw (hw e (mem_of_mem_dropWhile (hh ▸ List.mem_cons_self e t)))

theorem takeWhile_all {p : Char → Bool} :
    ∀ {l : List Char}, (∀ c ∈ l, p c = true) → l.takeWhile p = l := by
  intro l
  induction l with
  | nil => intro _; rfl
  | cons c r ih =>
    intro h
    rw [List.takeWhile_cons_of_pos (h c (List.mem_cons_self _ _)),
      ih (fun x hx => h x (List.mem_cons_of_mem _ hx))]

theorem match_dim_sp_fire {a b s1 s2 : List Char} {xc : Char}
    (ha : a ≠ []) (had : ∀ c ∈ a, c.isDigit = true)
    (hb : b ≠ []) (hbd : ∀ c ∈ b, c.isDigit = true)
    (hs1 : ∀ c ∈ s1, is_space c = true) (hs2 : ∀ c ∈ s2, is_space c = true)
    (hxc : xc = 'x' ∨ xc = 'X') :
    match_dim_sp (' ' :: (a ++ (s1 ++ (xc :: (s2 ++ b))))) =
      some (1 + a.length + s1.length + 1 + s2.length + b.length,
            (a ++ s1) ++ xc :: (s2 ++ b)) := by
  obtain ⟨a0, a', rfl⟩ : ∃ a0 a', a = a0 :: a' := by
    cases a with
    | nil => exact absurd rfl ha
    | cons x y => exact ⟨x, y, rfl⟩
  obtain ⟨b0, b', rfl⟩ : ∃ b0 b', b = b0 :: b' := by
    cases b with
    | nil => exact absurd rfl hb
    | cons x y => exact ⟨x, y, rfl⟩
  have ha0 : is_space a0 = false := isDigit_not_space (had a0 (List.mem_cons_self _ _))
  have hb0 : is_space b0 = false := isDigit_not_space (hbd b0 (List.mem_cons_self _ _))
  have hxs : is_space xc = false := by rcases hxc with rfl | rfl <;> decide
  have hxd : xc.isDigit = false := by rcases hxc with rfl | rfl <;> decide
  have hcond : (xc = 'x' || xc = 'X' : Bool) = true := by
    rcases hxc with rfl | rfl <;> decide
  have hsp : (' ' :: ((a0 :: a') ++ (s1 ++ (xc :: (s2 ++ (b0 :: b')))))).takeWhile is_space
      = [' '] := by
    rw [List.takeWhile_cons_of_pos (by decide), List.cons_append,
      List.takeWhile_cons_of_neg (bool_ne_true ha0)]
  have hd1 : ((a0 :: a') ++ (s1 ++ (xc :: (s2 ++ (b0 :: b'))))).takeWhile Char.isDigit
      = a0 :: a' := by
    refine takeWhile_append_eq had ?_
    intro e he
    cases s1 with
    | nil =>
      simp only [List.nil_append, List.head?_cons, Option.some.injEq] at he
      rw [← he]; exact hxd
    | cons s1h s1t =>
      simp only [List.cons_append, List.head?_cons, Option.some.injEq] at he
      rw [← he]; exact space_not_digit (hs1 s1h (List.mem_cons_self _ _))
  have hs1' : (s1 ++ (xc :: (s2 ++ (b0 :: b')))).takeWhile is_space = s1 := by
    refine takeWhile_append_eq hs1 ?_
    intro e he
    simp only [List.head?_cons, Option.some.injEq] at he
    rw [← he]; exact hxs
  have hs2' : (s2 ++ (b0 :: b')).takeWhile is_space = s2 := by
    refine takeWhile_append_eq hs2 ?_
    intro e he
    simp only [List.head?_cons, Option.some.injEq] at he
    rw [← he]; exact hb0
  have hd2 : (b0 :: b').takeWhile Char.isDigit = b0 :: b' := takeWhile_all hbd
  rw [match_dim_sp]
  simp only [hsp, List.isEmpty_cons, Bool.false_eq_true, if_false, List.length_cons,
    List.length_nil, List.drop_succ_cons, List.drop_zero, hd1, List.drop_left, hs1', hs2', hd2,
    hcond, if_true]
  have hdropa : List.drop (a'.length + 1) (a0 :: a' ++ (s1 ++ xc :: (s2 ++ b0 :: b'))) =
      s1 ++ xc :: (s2 ++ b0 :: b') := by
    rw [List.cons_append, List.drop_succ_cons, List.drop_left]
  simp only [hdropa, hs1', List.drop_left, hcond, if_true, hs2', hd2, List.isEmpty_cons,
    Bool.false_eq_true, if_false]
  simp only [Option.some.injEq, Prod.mk.injEq, List.append_assoc, List.cons_append,
    Nat.zero_add]
  exact ⟨by rw [List.length_cons], trivial⟩

theorem search_first_dim {a b s1 s2 : List Char} {xc d : Char}
    (ha : a ≠ []) (had : ∀ c ∈ a, c.isDigit = true)
    (hb : b ≠ []) (hbd : ∀ c ∈ b, c.isDigit = true)
    (hs1 : ∀ c ∈ s1, is_space c = true) (hs2 : ∀ c ∈ s2, is_space c = true)
    (hxc : xc = 'x' ∨ xc = 'X')
    (hd2 : d.isDigit = false) (hd3 : is_space d = false) :
    ∀ nm : List Char, (∀ x ∈ nm, x.isDigit = false) →
      search_first match_dim_sp (nm ++ d :: ' ' :: (a ++ (s1 ++ (xc :: (s2 ++ b))))) =
        some ((a ++ s1) ++ xc :: (s2 ++ b)) := by
  intro nm
  induction nm with
  | nil =>
    intro _
    have h0 : match_dim_sp (d :: ' ' :: (a ++ (s1 ++ (xc :: (s2 ++ b))))) = none :=
      dim_no_match hd2 hd3 [] (by intro x hx; cases hx) _
    rw [List.nil_append, search_first, h0, search_first,
      match_dim_sp_fire ha had hb hbd hs1 hs2 hxc]
  | cons c nm' ih =>
    intro hnm
    have h0 : match_dim_sp (c :: (nm' ++ d :: ' ' :: (a ++ (s1 ++ (xc :: (s2 ++ b)))))) = none :=
      dim_no_match hd2 hd3 (c :: nm') hnm _
    rw [List.cons_append, search_first, h0]
    exact ih (fun x hx => hnm x (List.mem_cons_of_mem _ hx))

theorem sub_all_del_dim {a b s1 s2 : List Char} {xc d : Char}
    (ha : a ≠ []) (had : ∀ c ∈ a, c.isDigit = true)
    (hb : b ≠ []) (hbd : ∀ c ∈ b, c.isDigit = true)
    (hs1 : ∀ c ∈ s1, is_space c = true) (hs2 : ∀ c ∈ s2, is_space c = true)
    (hxc : xc = 'x' ∨ xc = 'X')
    (hd2 : d.isDigit = false) (hd3 : is_space d = false) :
    ∀ (nm : List Char) (fuel : Nat), (∀ x ∈ nm, x.isDigit = false) →
      nm.length + 2 ≤ fuel →
      sub_all_del match_dim_sp fuel (nm ++ d :: ' ' :: (a ++ (s1 ++ (xc :: (s2 ++ b))))) =
        nm ++ [d] := by
  intro nm
  induction nm with
  | nil =>
    intro fuel _ hfuel
    obtain ⟨f, rfl⟩ : ∃ f, fuel = f + 1 := ⟨fuel - 1, by omega⟩
    have h0 : match_dim_sp (d :: ' ' :: (a ++ (s1 ++ (xc :: (s2 ++ b))))) = none :=
      dim_no_match hd2 hd3 [] (by intro x hx; cases hx) _
    rw [List.nil_append, sub_all_del, h0]
    obtain ⟨g, rfl⟩ : ∃ g, f = g + 1 := ⟨f - 1, by omega⟩
    dsimp only
    rw [sub_all_del, match_dim_sp_fire ha had hb hbd hs1 hs2 hxc]
    dsimp only
    rw [if_neg (show ¬ (1 + a.length + s1.length + 1 + s2.length + b.length = 0) by omega)]
    have hk : 1 + a.length + s1.length + 1 + s2.length + b.length =
        (' ' :: (a ++ (s1 ++ (xc :: (s2 ++ b))))).length := by
      simp [List.length_append, List.length_cons]
      omega
    rw [hk, List.drop_length]
    cases g with
    | zero => rfl
    | succ g' => rfl
  | cons c nm' ih =>
    intro fuel hnm hfuel
    obtain ⟨f, rfl⟩ : ∃ f, fuel = f + 1 := ⟨fuel - 1, by omega⟩
    have h0 : match_dim_sp (c :: (nm' ++ d :: ' ' :: (a ++ (s1 ++ (xc :: (s2 ++ b)))))) = none :=
      dim_no_match hd2 hd3 (c :: nm') hnm _
    rw [List.cons_append, sub_all_del, h0]
    rw [ih f (fun x hx => hnm x (List.mem_cons_of_mem _ hx)) (by simp at hfuel ⊢; omega)]
    rfl

theorem isDigit_ne_dash {c : Char} (h : c.isDigit = true) : c ≠ '-' := by
  rintro rfl; exact absurd h (by decide)

theorem strip_ws_eq_self {l : List Char} (h1 : l.dropWhile is_space = l)
    (h2 : l.reverse.dropWhile is_space = l.reverse) : strip_ws l = l := by
  rw [strip_ws, h1, h2, List.reverse_reverse]

theorem rev_head_digit {Y b : List Char} (hb : b ≠ []) (hbd : ∀ c ∈ b, c.isDigit = true) :
    ∃ e r, (Y ++ b).reverse = e :: r ∧ e.isDigit = true := by
  cases hbr : b.reverse with
  | nil =>
    exact absurd (by simpa using congrArg List.reverse hbr) hb
  | cons e r' =>
    have he : e ∈ b := by
      rw [← List.mem_reverse, hbr]; exact List.mem_cons_self _ _
    exact ⟨e, r' ++ Y.reverse,
      by rw [List.reverse_append, hbr, List.cons_append], hbd e he⟩

theorem strip_price_core_id {l : List Char} {e : Char} {r : List Char} (dollar : Bool)
    (hrev : l.reverse = e :: r) (he : e.isDigit = true) :
    strip_price_core dollar l = l := by
  have hdw : l.reverse.dropWhile is_space = e :: r := by
    rw [hrev, List.dropWhile_cons_of_neg (bool_ne_true (isDigit_not_space he))]
  rw [strip_price_core, hdw]
  split
  · rename_i r2 heq
    exact absurd (List.cons.inj heq).1 (isDigit_ne_dash he)
  · rfl

theorem extract_size_eval {a b s1 s2 : List Char} {xc d : Char} {nm : List Char}
    (ha : a ≠ []) (had : ∀ c ∈ a, c.isDigit = true)
    (hb : b ≠ []) (hbd : ∀ c ∈ b, c.isDigit = true)
    (hs1 : ∀ c ∈ s1, is_space c = true) (hs2 : ∀ c ∈ s2, is_space c = true)
    (hxc : xc = 'x' ∨ xc = 'X')
    (hd2 : d.isDigit = false) (hd3 : is_space d = false)
    (hnm : ∀ x ∈ nm, x.isDigit = false) :
    extract_size (nm ++ d :: ' ' :: (a ++ (s1 ++ (xc :: (s2 ++ b))))) =
      some ((a ++ s1) ++ xc :: (s2 ++ b), strip_ws (nm ++ [d])) := by
  rw [extract_size, size_matchers]
  rw [extract_size_go]
  rw [search_first_dim ha had hb hbd hs1 hs2 hxc hd2 hd3 nm hnm]
  rw [sub_all_del_dim ha had hb hbd hs1 hs2 hxc hd2 hd3 nm _ hnm
    (by simp [List.length_append])]
  obtain ⟨a0, a', rfl⟩ : ∃ a0 a', a = a0 :: a' := by
    cases a with
    | nil => exact absurd rfl ha
    | cons x y => exact ⟨x, y, rfl⟩
  have ha0 : is_space a0 = false := isDigit_not_space (had a0 (List.mem_cons_self _ _))
  have hcap1 : ((a0 :: a' ++ s1) ++ xc :: (s2 ++ b)).dropWhile is_space =
      (a0 :: a' ++ s1) ++ xc :: (s2 ++ b) := by
    show (a0 :: ((a' ++ s1) ++ xc :: (s2 ++ b))).dropWhile is_space = _
    rw [List.dropWhile_cons_of_neg (bool_ne_true ha0)]
    simp [List.append_assoc]
  obtain ⟨e, er, hrev, hed⟩ := rev_head_digit (Y := (a0 :: a' ++ s1) ++ xc :: s2) hb hbd
  have hcap2 : (((a0 :: a' ++ s1) ++ xc :: (s2 ++ b)).reverse).dropWhile is_space =
      ((a0 :: a' ++ s1) ++ xc :: (s2 ++ b)).reverse := by
    have hshape : ((a0 :: a' ++ s1) ++ xc :: (s2 ++ b)) =
        (((a0 :: a' ++ s1) ++ xc :: s2) ++ b) := by
      simp [List.append_assoc]
    rw [hshape, hrev, List.dropWhile_cons_of_neg (bool_ne_true (isDigit_not_space hed))]
  dsimp only
  rw [strip_ws_eq_self hcap1 hcap2]

theorem match_dim_join_fire {a b s1 s2 : List Char}
    (ha : a ≠ []) (had : ∀ c ∈ a, c.isDigit = true)
    (hb : b ≠ []) (hbd : ∀ c ∈ b, c.isDigit = true)
    (hs1 : ∀ c ∈ s1, is_space c = true) (hs2 : ∀ c ∈ s2, is_space c = true) :
    match_dim_join (a ++ (s1 ++ ('x' :: (s2 ++ b)))) =
      some (a.length + s1.length + 1 + s2.length + b.length, a ++ 'x' :: b) := by
  obtain ⟨b0, b', rfl⟩ : ∃ b0 b', b = b0 :: b' := by
    cases b with
    | nil => exact absurd rfl hb
    | cons x y => exact ⟨x, y, rfl⟩
  have hb0 : is_space b0 = false := isDigit_not_space (hbd b0 (List.mem_cons_self _ _))
  have hn1 : num_chars (a ++ (s1 ++ ('x' :: (s2 ++ b0 :: b')))) =
      some (a, s1 ++ ('x' :: (s2 ++ b0 :: b'))) := by
    refine num_chars_eval ha had ?_
    intro e he
    cases s1 with
    | nil =>
      simp only [List.nil_append, List.head?_cons, Option.some.injEq] at he
      rw [← he]; exact ⟨by decide, by decide⟩
    | cons s1h s1t =>
      simp only [List.cons_append, List.head?_cons, Option.some.injEq] at he
      rw [← he]
      exact ⟨space_not_digit (hs1 s1h (List.mem_cons_self _ _)),
        fun hdd => by rw [hdd] at he; exact absurd (hs1 _ (List.mem_cons_self _ _)) (by subst hdd; decide)⟩
  have hs1' : (s1 ++ ('x' :: (s2 ++ b0 :: b'))).takeWhile is_space = s1 := by
    refine takeWhile_append_eq hs1 ?_
    intro e he
    simp only [List.head?_cons, Option.some.injEq] at he
    rw [← he]; decide
  have hs2' : (s2 ++ b0 :: b').takeWhile is_space = s2 := by
    refine takeWhile_append_eq hs2 ?_
    intro e he
    simp only [List.head?_cons, Option.some.injEq] at he
    rw [← he]; exact hb0
  have hn2 : num_chars (b0 :: b') = some (b0 :: b', []) := by
    have := num_chars_eval (u := b0 :: b') (v := []) (by simp) hbd (by intro e he; cases he)
    simpa using this
  rw [match_dim_join, hn1]
  simp only [hs1', List.drop_left]
  simp only [hs2', List.drop_left, hn2]

theorem sub_all_rep_join {a b s1 s2 : List Char}
    (ha : a ≠ []) (had : ∀ c ∈ a, c.isDigit = true)
    (hb : b ≠ []) (hbd : ∀ c ∈ b, c.isDigit = true)
    (hs1 : ∀ c ∈ s1, is_space c = true) (hs2 : ∀ c ∈ s2, is_space c = true) :
    sub_all_rep match_dim_join (a ++ (s1 ++ ('x' :: (s2 ++ b)))).length
      (a ++ (s1 ++ ('x' :: (s2 ++ b)))) = a ++ 'x' :: b := by
  obtain ⟨a0, a', rfl⟩ : ∃ a0 a', a = a0 :: a' := by
    cases a with
    | nil => exact absurd rfl ha
    | cons x y => exact ⟨x, y, rfl⟩
  have hlen : (a0 :: a' ++ (s1 ++ ('x' :: (s2 ++ b)))).length =
      (a' ++ (s1 ++ ('x' :: (s2 ++ b)))).length + 1 := by
    simp
  rw [hlen]
  show sub_all_rep match_dim_join _ (a0 :: (a' ++ (s1 ++ ('x' :: (s2 ++ b))))) = _
  rw [sub_all_rep]
  have hfire : match_dim_join (a0 :: (a' ++ (s1 ++ ('x' :: (s2 ++ b))))) =
      some ((a0 :: a').length + s1.length + 1 + s2.length + b.length, (a0 :: a') ++ 'x' :: b) :=
    match_dim_join_fire ha had hb hbd hs1 hs2
  rw [hfire]
  dsimp only
  rw [if_neg (show ¬ ((a0 :: a').length + s1.length + 1 + s2.length + b.length = 0) by
    simp)]
  have hk : (a0 :: a').length + s1.length + 1 + s2.length + b.length =
      (a0 :: (a' ++ (s1 ++ ('x' :: (s2 ++ b))))).length := by
    simp [List.length_append]
    omega
  rw [hk, List.drop_length]
  have hz : ∀ f, sub_all_rep match_dim_join f ([] : List Char) = [] := by
    intro f
    cases f with
    | zero => rfl
    | succ g => rfl
  rw [hz, List.append_nil]

theorem dropWhile_head_false {p : Char → Bool} {e : Char} {t : List Char} :
    ∀ {l : List Char}, l.dropWhile p = e :: t → p e = false := by
  intro l
  induction l with
  | nil => intro h; exact absurd h (by simp)
  | cons c r ih =>
    intro h
    by_cases hc : p c = true
    · rw [List.dropWhile_cons_of_pos hc] at h
      exact ih h
    · rw [List.dropWhile_cons_of_neg hc] at h
      rw [← (List.cons.inj h).1]
      exact Bool.not_eq_true _ ▸ (by revert hc; cases p c <;> simp)
theorem num_chars_digit_x {c : Char} {rest : List Char} (hc : c.isDigit = true)
    (hl : ∀ x ∈ c :: rest, x.isDigit = true ∨ x = 'x') :
    num_chars (c :: rest) =
      some ((c :: rest).takeWhile Char.isDigit, (c :: rest).dropWhile Char.isDigit) := by
  rw [num_chars]
  rw [if_neg (by simp [List.takeWhile_cons_of_pos hc])]
  rw [drop_takeWhile_length]
  cases hdw : (c :: rest).dropWhile Char.isDigit with
  | nil => rfl
  | cons e t =>
    have hef : Char.isDigit e = false := dropWhile_head_false hdw
    have hex : e = 'x' := by
      have hmem : e ∈ c :: rest := mem_of_mem_dropWhile (p := Char.isDigit) (hdw ▸ List.mem_cons_self e t)
      rcases hl e hmem with hd | hx
      · rw [hd] at hef; exact absurd hef (by simp)
      · exact hx
    subst hex
    rfl
theorem match_unit_space_none {l : List Char} (hl : ∀ c ∈ l, c.isDigit = true ∨ c = 'x')
    {c : Char} {rest : List Char} (hshape : l = c :: rest) :
    match_unit_space l = none := by
  subst hshape
  rcases hl c (List.mem_cons_self _ _) with hc | hc
  · rw [match_unit_space, num_chars_digit_x hc hl]
    cases hdw : (c :: rest).dropWhile Char.isDigit with
    | nil => rfl
    | cons e t =>
      have hef : Char.isDigit e = false := dropWhile_head_false hdw
      have hex : e = 'x' := by
        have hmem : e ∈ c :: rest := mem_of_mem_dropWhile (p := Char.isDigit) (hdw ▸ List.mem_cons_self e t)
        rcases hl e hmem with hd | hx
        · rw [hd] at hef; exact absurd hef (by simp)
        · exact hx
      subst hex
      dsimp only
      have hs : ('x' :: t).takeWhile is_space = [] :=
        List.takeWhile_cons_of_neg (by decide)
      simp only [hs, List.length_nil, List.drop_zero]
      have hg2 : ('x' :: t).takeWhile (fun ch => 'a' ≤ ch && ch ≤ 'z' && ch ≠ 'x') = [] :=
        List.takeWhile_cons_of_neg (by decide)
      simp only [hg2, List.isEmpty_nil, if_true]
  · subst hc
    rw [match_unit_space, num_chars]
    rw [if_pos (by rw [List.takeWhile_cons_of_neg (by decide : ¬ Char.isDigit 'x' = true)]; rfl)]
theorem sub_all_rep_unit_id {l : List Char} (hl : ∀ c ∈ l, c.isDigit = true ∨ c = 'x') :
    ∀ fuel, sub_all_rep match_unit_space fuel l = l := by
  induction l with
  | nil =>
    intro fuel
    cases fuel with
    | zero => rfl
    | succ g => rfl
  | cons c rest ih =>
    intro fuel
    cases fuel with
    | zero => rfl
    | succ g =>
      rw [sub_all_rep, match_unit_space_none hl rfl]
      rw [ih (fun x hx => hl x (List.mem_cons_of_mem _ hx)) g]

theorem lower_cap {a b s1 s2 : List Char} {xc : Char}
    (had : ∀ c ∈ a, c.isDigit = true) (hbd : ∀ c ∈ b, c.isDigit = true)
    (hs1 : ∀ c ∈ s1, is_space c = true) (hs2 : ∀ c ∈ s2, is_space c = true)
    (hxc : xc = 'x' ∨ xc = 'X') :
    ((a ++ s1) ++ xc :: (s2 ++ b)).map Char.toLower = a ++ (s1 ++ ('x' :: (s2 ++ b)))  := by
  have hxl : xc.toLower = 'x' := by rcases hxc with rfl | rfl <;> decide
  rw [List.map_append, List.map_append, List.map_cons, List.map_append]
  rw [map_id_on (fun c hc => toLower_digit (had c hc)),
    map_id_on (fun c hc => toLower_digit (hbd c hc)),
    map_id_on (fun c hc => toLower_space (hs1 c hc)),
    map_id_on (fun c hc => toLower_space (hs2 c hc)), hxl]
  simp [List.append_assoc]

theorem words_aux_all_space {s : List Char} (hs : ∀ c ∈ s, is_space c = true) :
    ∀ cur, words_aux s cur = if cur.isEmpty = true then [] else [cur.reverse] := by
  induction s with
  | nil => intro cur; rfl
  | cons c s' ih =>
    intro cur
    rw [words_aux, if_pos (hs c (List.mem_cons_self _ _))]
    have ihz : words_aux s' [] = [] := by
      rw [ih (fun x hx => hs x (List.mem_cons_of_mem _ hx)) []]
      rfl
    by_cases hcur : cur.isEmpty = true
    · rw [if_pos hcur, if_pos hcur, ihz]
    · rw [if_neg hcur, if_neg hcur, ihz]

theorem words_aux_ltrim {s : List Char} (hs : ∀ c ∈ s, is_space c = true) :
    ∀ l : List Char, words_aux (s ++ l) [] = words_aux l [] := by
  induction s with
  | nil => intro l; rfl
  | cons c s' ih =>
    intro l
    rw [List.cons_append, words_aux, if_pos (hs c (List.mem_cons_self _ _))]
    show words_aux (s' ++ l) [] = words_aux l []
    exact ih (fun x hx => hs x (List.mem_cons_of_mem _ hx)) l

theorem words_aux_no_space {l : List Char} (hl : l ≠ []) (hns : ∀ c ∈ l, is_space c = false) :
    ∀ cur, words_aux l cur = [cur.reverse ++ l] := by
  induction l with
  | nil => exact absurd rfl hl
  | cons c l' ih =>
    intro cur
    rw [words_aux, if_neg (bool_ne_true (hns c (List.mem_cons_self _ _)))]
    cases hl' : l' with
    | nil =>
      rw [words_aux, if_neg (by simp)]
      simp
    | cons e t =>
      rw [← hl']
      rw [ih (by rw [hl']; simp) (fun x hx => hns x (List.mem_cons_of_mem _ hx)) (c :: cur)]
      simp

theorem collapse_ws_no_space {l : List Char} (hl : l ≠ [])
    (hns : ∀ c ∈ l, is_space c = false) : collapse_ws l = l := by
  rw [collapse_ws, py_words, words_aux_no_space hl hns []]
  rfl

theorem collapse_ws_ltrim {l r : List Char} :
    collapse_ws (l.dropWhile is_space ++ r) = collapse_ws (l ++ r) := by
  rw [collapse_ws, collapse_ws, py_words, py_words]
  have hdecomp : l ++ r = l.takeWhile is_space ++ (l.dropWhile is_space ++ r) := by
    rw [← List.append_assoc, List.takeWhile_append_dropWhile]
  rw [hdecomp, words_aux_ltrim (fun c hc => List.mem_takeWhile_imp hc)]

theorem mem_words_aux {c : Char} :
    ∀ {l cur : List Char} {w : List Char}, w ∈ words_aux l cur → c ∈ w →
      c ∈ l ∨ c ∈ cur := by
  intro l
  induction l with
  | nil =>
    intro cur w hw hc
    rw [words_aux] at hw
    by_cases hcur : cur.isEmpty = true
    · rw [if_pos hcur] at hw; cases hw
    · rw [if_neg hcur] at hw
      rcases List.mem_singleton.mp hw with rfl
      exact Or.inr (List.mem_reverse.mp hc)
  | cons a l' ih =>
    intro cur w hw hc
    rw [words_aux] at hw
    by_cases ha : is_space a = true
    · rw [if_pos ha] at hw
      by_cases hcur : cur.isEmpty = true
      · rw [if_pos hcur] at hw
        rcases ih hw hc with h1 | h2
        · exact Or.inl (List.mem_cons_of_mem _ h1)
        · cases h2
      · rw [if_neg hcur] at hw
        rcases List.mem_cons.mp hw with rfl | hw'
        · exact Or.inr (List.mem_reverse.mp hc)
        · rcases ih hw' hc with h1 | h2
          · exact Or.inl (List.mem_cons_of_mem _ h1)
          · cases h2
    · rw [if_neg ha] at hw
      rcases ih hw hc with h1 | h2
      · exact Or.inl (List.mem_cons_of_mem _ h1)
      · rcases List.mem_cons.mp h2 with rfl | h3
        · exact Or.inl (List.mem_cons_self _ _)
        · exact Or.inr h3

theorem mem_join_space {c : Char} :
    ∀ {ws : List (List Char)}, c ∈ join_space ws → c = ' ' ∨ ∃ w ∈ ws, c ∈ w := by
  intro ws
  induction ws with
  | nil => intro h; cases h
  | cons w ws' ih =>
    intro h
    cases hws : ws' with
    | nil =>
      rw [hws] at h
      rw [join_space] at h
      exact Or.inr ⟨w, List.mem_cons_self _ _, h⟩
    | cons v vs =>
      rw [hws] at h ih
      rw [show join_space (w :: v :: vs) = w ++ ' ' :: join_space (v :: vs) from rfl] at h
      rcases List.mem_append.mp h with h1 | h2
      · exact Or.inr ⟨w, List.mem_cons_self _ _, h1⟩
      · rcases List.mem_cons.mp h2 with rfl | h3
        · exact Or.inl rfl
        · rcases ih h3 with h4 | ⟨v', hv', hc⟩
          · exact Or.inl h4
          · exact Or.inr ⟨v', List.mem_cons_of_mem _ hv', hc⟩

theorem mem_collapse_ws {c : Char} {l : List Char} (h : c ∈ collapse_ws l) :
    c = ' ' ∨ c ∈ l := by
  rw [collapse_ws] at h
  rcases mem_join_space h with h1 | ⟨w, hw, hc⟩
  · exact Or.inl h1
  · rcases mem_words_aux hw hc with h2 | h3
    · exact Or.inr h2
    · cases h3

theorem strip_ws_cap {a b s1 s2 : List Char} {xc : Char}
    (ha : a ≠ []) (had : ∀ c ∈ a, c.isDigit = true)
    (hb : b ≠ []) (hbd : ∀ c ∈ b, c.isDigit = true) :
    strip_ws ((a ++ s1) ++ xc :: (s2 ++ b)) = (a ++ s1) ++ xc :: (s2 ++ b) := by
  obtain ⟨a0, a', rfl⟩ : ∃ a0 a', a = a0 :: a' := by
    cases a with
    | nil => exact absurd rfl ha
    | cons x y => exact ⟨x, y, rfl⟩
  have ha0 : is_space a0 = false := isDigit_not_space (had a0 (List.mem_cons_self _ _))
  have hcap1 : ((a0 :: a' ++ s1) ++ xc :: (s2 ++ b)).dropWhile is_space =
      (a0 :: a' ++ s1) ++ xc :: (s2 ++ b) := by
    show (a0 :: ((a' ++ s1) ++ xc :: (s2 ++ b))).dropWhile is_space = _
    rw [List.dropWhile_cons_of_neg (bool_ne_true ha0)]
    simp [List.append_assoc]
  obtain ⟨e, er, hrev, hed⟩ := rev_head_digit (Y := (a0 :: a' ++ s1) ++ xc :: s2) hb hbd
  have hcap2 : (((a0 :: a' ++ s1) ++ xc :: (s2 ++ b)).reverse).dropWhile is_space =
      ((a0 :: a' ++ s1) ++ xc :: (s2 ++ b)).reverse := by
    have hshape : ((a0 :: a' ++ s1) ++ xc :: (s2 ++ b)) =
        (((a0 :: a' ++ s1) ++ xc :: s2) ++ b) := by
      simp [List.append_assoc]
    rw [hshape, hrev, List.dropWhile_cons_of_neg (bool_ne_true (isDigit_not_space hed))]
  exact strip_ws_eq_self hcap1 hcap2

theorem standardize_cap {a b s1 s2 : List Char} {xc : Char}
    (ha : a ≠ []) (had : ∀ c ∈ a, c.isDigit = true)
    (hb : b ≠ []) (hbd : ∀ c ∈ b, c.isDigit = true)
    (hs1 : ∀ c ∈ s1, is_space c = true) (hs2 : ∀ c ∈ s2, is_space c = true)
    (hxc : xc = 'x' ∨ xc = 'X') :
    standardize_size ((a ++ s1) ++ xc :: (s2 ++ b)) = a ++ 'x' :: b := by
  have hne : ((a ++ s1) ++ xc :: (s2 ++ b)).isEmpty = false := by
    simp
  rw [standardize_size, hne]
  rw [if_neg (by simp)]
  rw [strip_ws_cap ha had hb hbd]
  dsimp only
  rw [lower_cap had hbd hs1 hs2 hxc]
  rw [sub_all_rep_join ha had hb hbd hs1 hs2]
  have hdx : ∀ c ∈ a ++ 'x' :: b, c.isDigit = true ∨ c = 'x' := by
    intro c hc
    rcases List.mem_append.mp hc with h1 | h2
    · exact Or.inl (had c h1)
    · rcases List.mem_cons.mp h2 with rfl | h3
      · exact Or.inr rfl
      · exact Or.inl (hbd c h3)
  rw [sub_all_rep_unit_id hdx]
  refine collapse_ws_no_space ?_ ?_
  · cases a with
    | nil => exact absurd rfl ha
    | cons x y => simp
  · intro c hc
    rcases hdx c hc with h1 | h2
    · exact isDigit_not_space h1
    · subst h2; decide

theorem strip_ws_append_last {nm : List Char} {d : Char} (hd3 : is_space d = false) :
    strip_ws (nm ++ [d]) = nm.dropWhile is_space ++ [d] := by
  rw [strip_ws]
  have h1 : (nm ++ [d]).dropWhile is_space = nm.dropWhile is_space ++ [d] :=
    dropWhile_append_cons hd3 nm []
  rw [h1]
  have h2 : (nm.dropWhile is_space ++ [d]).reverse = d :: (nm.dropWhile is_space).reverse := by
    rw [List.reverse_append]
    rfl
  rw [h2, List.dropWhile_cons_of_neg (bool_ne_true hd3), ← h2, List.reverse_reverse]

theorem ends_in_x_append {n : List Char} {d : Char}
    (hd3 : is_space d = false) (hdx : d ≠ 'x') (hdX : d ≠ 'X') :
    ends_in_x (n ++ [d]) = false := by
  rw [ends_in_x]
  have h2 : (n ++ [d]).reverse = d :: n.reverse := by
    rw [List.reverse_append]
    rfl
  rw [h2, List.dropWhile_cons_of_neg (bool_ne_true hd3)]
  show (decide (d = 'x') || decide (d = 'X')) = false
  rw [decide_eq_false hdx, decide_eq_false hdX]
  rfl

theorem strip_trailing_int_append {n : List Char} {d : Char} (hd2 : d.isDigit = false) :
    strip_trailing_int (n ++ [d]) = n ++ [d] := by
  rw [strip_trailing_int]
  have h2 : (n ++ [d]).reverse = d :: n.reverse := by
    rw [List.reverse_append]
    rfl
  rw [h2, List.takeWhile_cons_of_neg (bool_ne_true hd2)]
  rfl

theorem clean_item_name_dim {nm a b s1 s2 : List Char} {d xc : Char}
    (hnm : ∀ x ∈ nm, x.isDigit = false)
    (hd2 : d.isDigit = false) (hd3 : is_space d = false)
    (hdx : d ≠ 'x') (hdX : d ≠ 'X')
    (ha : a ≠ []) (had : ∀ c ∈ a, c.isDigit = true)
    (hb : b ≠ []) (hbd : ∀ c ∈ b, c.isDigit = true)
    (hs1 : ∀ c ∈ s1, is_space c = true) (hs2 : ∀ c ∈ s2, is_space c = true)
    (hxc : xc = 'x' ∨ xc = 'X') :
    clean_item_name ((nm ++ [d]) ++ ' ' :: (a ++ (s1 ++ (xc :: (s2 ++ b))))) [] =
      (collapse_ws (nm ++ [d]), a ++ 'x' :: b) := by
  have hin : (nm ++ [d]) ++ ' ' :: (a ++ (s1 ++ (xc :: (s2 ++ b)))) =
      nm ++ d :: ' ' :: (a ++ (s1 ++ (xc :: (s2 ++ b)))) := by
    simp
  obtain ⟨e, er, hrev0, hed⟩ :=
    rev_head_digit (Y := nm ++ (d :: ' ' :: ((a ++ s1) ++ xc :: s2))) hb hbd
  have hrevI : (nm ++ d :: ' ' :: (a ++ (s1 ++ (xc :: (s2 ++ b))))).reverse = e :: er := by
    rw [show nm ++ d :: ' ' :: (a ++ (s1 ++ (xc :: (s2 ++ b)))) =
        (nm ++ (d :: ' ' :: ((a ++ s1) ++ xc :: s2))) ++ b by
      simp [List.append_assoc]]
    exact hrev0
  rw [hin, clean_item_name]
  rw [strip_price_dollar, strip_price_core_id true hrevI hed]
  rw [strip_price_plain, strip_price_core_id false hrevI hed]
  rw [extract_size_eval ha had hb hbd hs1 hs2 hxc hd2 hd3 hnm]
  rw [strip_ws_append_last hd3]
  simp only [List.isEmpty_nil, reduceIte]
  rw [ends_in_x_append hd3 hdx hdX]
  simp only [Bool.false_eq_true, if_false]
  rw [strip_trailing_int_append hd2]
  rw [if_neg (by simp)]
  rw [standardize_cap ha had hb hbd hs1 hs2 hxc]
  rw [collapse_ws_ltrim]

/-- C7 counterexample: on the input `"BRAND X 2 X 4 9 X 12"` — which has
the claimed shape `"<name> <a> X <b>"` with `name = "BRAND X 2 X 4"`,
`a = 9`, `b = 12` — `re.search` finds the LEFTMOST dimension, so the
extracted size is `"2x4"`, not `"9x12"`, and the returned name
`"BRAND X"` still contains `X`. -/
theorem c7_counterexample :
    clean_item_name (chars "BRAND X 2 X 4 9 X 12") [] = (chars "BRAND X", chars "2x4") ∧
    chars "2x4" ≠ chars "9x12" ∧
    occurs_in (chars "X") (chars "BRAND X") = true := by
  decide

/-- C7 (amended): for every input of the form `"<name> <a> X <b>"` —
name ending in a non-space, non-digit, non-`x`/`X` character and
containing no digits and no `x`/`X`, nonempty digit strings `a` and `b`,
any (possibly empty) runs of whitespace around either-case `X` — and no
separately supplied size, the normalizer returns the size `axb` with a
lower-case `x` and no internal spaces, and a whitespace-collapsed name
whose characters include none of the digits and no `x`/`X`.  The
restriction on the name is necessary: see the counterexample, where a
name containing digits steals the dimension match. -/
theorem c7_dimension_extraction (nm a b s1 s2 : List Char) (d xc : Char)
    (hnm : ∀ x ∈ nm, x.isDigit = false ∧ x ≠ 'x' ∧ x ≠ 'X')
    (hd2 : d.isDigit = false) (hd3 : is_space d = false)
    (hdx : d ≠ 'x') (hdX : d ≠ 'X')
    (ha : a ≠ []) (had : ∀ c ∈ a, c.isDigit = true)
    (hb : b ≠ []) (hbd : ∀ c ∈ b, c.isDigit = true)
    (hs1 : ∀ c ∈ s1, is_space c = true) (hs2 : ∀ c ∈ s2, is_space c = true)
    (hxc : xc = 'x' ∨ xc = 'X') :
    clean_item_name ((nm ++ [d]) ++ ' ' :: (a ++ (s1 ++ (xc :: (s2 ++ b))))) [] =
      (collapse_ws (nm ++ [d]), a ++ 'x' :: b) ∧
    ∀ c ∈ collapse_ws (nm ++ [d]), c.isDigit = false ∧ c ≠ 'x' ∧ c ≠ 'X' := by
  refine ⟨clean_item_name_dim (fun x hx => (hnm x hx).1) hd2 hd3 hdx hdX
    ha had hb hbd hs1 hs2 hxc, ?_⟩
  intro c hc
  rcases mem_collapse_ws hc with rfl | hmem
  · exact ⟨by decide, by decide, by decide⟩
  · rcases List.mem_append.mp hmem with h1 | h2
    · exact hnm c h1
    · rcases List.mem_singleton.mp h2 with rfl
      exact ⟨hd2, hdx, hdX⟩

/-- C7 witness: `"NOTEPAD 9 X 12"` normalizes to name `"NOTEPAD"` and
size `"9x12"`. -/
theorem c7_dimension_extraction_witness :
    clean_item_name (chars "NOTEPAD 9 X 12") [] = (chars "NOTEPAD", chars "9x12") := by
  have h := (c7_dimension_extraction (chars "NOTEPA") (chars "9") (chars "12")
    (chars " ") (chars " ") 'D' 'X'
    (by decide) (by decide) (by decide) (by decide) (by decide) (by decide) (by decide)
    (by decide) (by decide) (by decide) (by decide) (Or.inr rfl)).1
  have e1 : chars "NOTEPAD 9 X 12" =
      (chars "NOTEPA" ++ ['D']) ++ ' ' ::
        (chars "9" ++ (chars " " ++ ('X' :: (chars " " ++ chars "12")))) := by
    decide
  have e2 : (chars "NOTEPAD", chars "9x12") =
      (collapse_ws (chars "NOTEPA" ++ ['D']), chars "9" ++ 'x' :: chars "12") := by
    decide
  rw [e1, e2]
  exact h
